import Mathlib

set_option maxRecDepth 10000

/-!
Verification development for the nfl-stats query core.

The Python sources are shallowly embedded: Python floats are modelled as
exact rationals, Python dicts keyed by header strings are modelled as
functions, and Python `None` or absent dict keys are modelled with
`Option`.  String primitives (`str.replace`, `float(...)`, word-boundary
regex search and substitution) are re-implemented as structurally
recursive Lean functions so everything evaluates inside the kernel.
-/

/-! ## Basic string helpers (models of Python string primitives) -/

/-- Model of Python `str.replace(pat, rep)` on character lists: replaces all
non-overlapping occurrences, scanning left to right.  The first argument is
fuel, always instantiated with the length of the string, which bounds the
number of scanning steps because each step consumes at least one character. -/
def replaceAux (pat rep : List Char) : ℕ → List Char → List Char
  | _, [] => []
  | 0, s => s
  | fuel+1, c :: cs =>
    if pat ≠ [] ∧ pat.isPrefixOf (c :: cs) then
      rep ++ replaceAux pat rep fuel (List.drop pat.length (c :: cs))
    else
      c :: replaceAux pat rep fuel cs

/-- Model of Python `str.replace` on strings. -/
def strReplace (s pat rep : String) : String :=
  String.mk (replaceAux pat.data rep.data s.data.length s.data)

/-- Numeric value of a list of decimal digit characters. -/
def digitsVal (cs : List Char) : ℕ :=
  cs.foldl (fun a c => a * 10 + (c.toNat - 48)) 0

/-- Model of Python `float(s)` restricted to plain decimal numerals
(optional sign, digits, optional decimal point): returns the exact rational
value, or `none` when `s` is not numeric (Python raises `ValueError`,
which every caller in the sources catches). -/
def parseRat? (s : String) : Option ℚ :=
  let cs := s.data
  let signed : Bool × List Char :=
    match cs with
    | '-' :: rest => (true, rest)
    | '+' :: rest => (false, rest)
    | _ => (false, cs)
  let body := signed.2
  let val? : Option ℚ :=
    match body.splitOn '.' with
    | [ip] =>
      if ip ≠ [] ∧ ip.all Char.isDigit then some ((digitsVal ip : ℚ)) else none
    | [ip, fp] =>
      if (ip ≠ [] ∨ fp ≠ []) ∧ ip.all Char.isDigit ∧ fp.all Char.isDigit then
        some ((digitsVal ip : ℚ) + (digitsVal fp : ℚ) / (10 : ℚ) ^ fp.length)
      else none
    | _ => none
  val?.map (fun q => if signed.1 then -q else q)

/-! ## Stat aggregator (src/nfl_stats/logic.py, aggregate_stats) -/

/-- Model of one game row: `game.get('stats', [])` is the only field the
aggregator and the threshold filter read. -/
structure Game where
  stats : List String
  deriving Repr, DecidableEq

/-- Cleaning applied to one raw stat cell before `float(...)`:
`str(val).replace(',', '').replace('--', '0')`. -/
def cleanStat (val : String) : String :=
  strReplace (strReplace val (",") ("")) ("--") ("0")

/-- Parsed numeric value of a cell, `none` when `float` would raise. -/
def cellVal? (val : String) : Option ℚ :=
  parseRat? (cleanStat val)

/-- Header deduplication loop of `aggregate_stats`: the dict
`header_counts` is modelled as a function returning `none` for labels not
seen yet and `some n` when the label was stored with counter value `n`. -/
def dedupAux (cnt : String → Option ℕ) : List String → List String
  | [] => []
  | h :: rest =>
    match cnt h with
    | some n =>
      (h ++ (".") ++ Nat.repr (n+1)) ::
        dedupAux (fun k => if k = h then some (n+1) else cnt k) rest
    | none =>
      h :: dedupAux (fun k => if k = h then some 0 else cnt k) rest

/-- Deduplicated header list: repeats of a label get positional suffixes. -/
def dedupHeaders (headers : List String) : List String :=
  dedupAux (fun _ => none) headers

/-- Running accumulation state of `aggregate_stats`: the dicts `sums`,
`maxes` and `counts`, all initialised to zero for every deduplicated
header. -/
structure AggState where
  sums : String → ℚ
  maxes : String → ℚ
  counts : String → ℕ

/-- Initial accumulation state (`{h: 0.0 for h in unique_headers}` etc.). -/
def initState : AggState :=
  { sums := fun _ => 0, maxes := fun _ => 0, counts := fun _ => 0 }

/-- Processing of one cell in the per-game loop: looked up only when the
column index is below the deduplicated header count, skipped silently when
the cell is not numeric. -/
def updateCell (uh : List String) (st : AggState) (i : ℕ) (val : String) : AggState :=
  match uh[i]? with
  | none => st
  | some header =>
    match cellVal? val with
    | none => st
    | some v =>
      { sums := fun k => if k = header then st.sums k + v else st.sums k
        maxes := fun k =>
          if k = header then (if v > st.maxes header then v else st.maxes header)
          else st.maxes k
        counts := fun k => if k = header then st.counts k + 1 else st.counts k }

/-- Processing of one game: `for i, val in enumerate(stats)`. -/
def processGame (uh : List String) (st : AggState) (g : Game) : AggState :=
  (g.stats.enum).foldl (fun s iv => updateCell uh s iv.1 iv.2) st

/-- Accumulation state after all games. -/
def aggState (games : List Game) (headers : List String) : AggState :=
  games.foldl (processGame (dedupHeaders headers)) initState

/-- Header classes whose totals are replaced by the average. -/
def rateHeaders : List String := [("Avg"), ("Rate"), ("Pct"), ("Yds/A"), ("Avg/R")]

/-- Header classes whose totals and averages are replaced by the max. -/
def longHeaders : List String := [("Lng"), ("Long")]

/-- Base label of a possibly suffixed deduplicated header:
`h.split('.')[0]`. -/
def baseHeader (h : String) : String :=
  String.mk ((h.data.splitOn '.').headD [])

/-- Result of `aggregate_stats`: the `averages` and `totals` dicts are
modelled as functions returning `none` for keys absent from the dict. -/
structure AggResult where
  averages : String → Option ℚ
  totals : String → Option ℚ
  game_count : ℕ
  headers : List String

/-- Model of `aggregate_stats(games, headers)`.  Returns `none` for the
empty-input early return (`{}`).  The `averages` dict before the
"fix totals" loop contains exactly the deduplicated headers with a
positive count; the fix-up loop then overrides rate-class totals with the
average (`averages.get(h, 0)`), and longest-class totals and averages with
the max. -/
def aggregate_stats (games : List Game) (headers : List String) : Option AggResult :=
  if games.isEmpty ∨ headers.isEmpty then none else
  let uh := dedupHeaders headers
  let st := aggState games headers
  let game_count := games.length
  let averages0 : String → Option ℚ := fun h =>
    if h ∈ uh ∧ 0 < st.counts h then some (st.sums h / (game_count : ℚ)) else none
  let totals : String → Option ℚ := fun h =>
    if h ∈ uh then
      if baseHeader h ∈ rateHeaders then some ((averages0 h).getD 0)
      else if baseHeader h ∈ longHeaders then some (st.maxes h)
      else some (st.sums h)
    else none
  let averages : String → Option ℚ := fun h =>
    if h ∈ uh ∧ baseHeader h ∈ longHeaders then some (st.maxes h) else averages0 h
  some { averages := averages, totals := totals, game_count := game_count, headers := uh }

/-- Counter dictionary describing the state of the deduplication loop after
it has processed the labels in `seen`: absent for unseen labels, otherwise
one less than the number of occurrences so far. -/
def seenCnt (seen : List String) (l : String) : Option ℕ :=
  if seen.count l = 0 then none else some (seen.count l - 1)

/-- Example games for a rate-class header with per-game values 80.0, 90.0. -/
def rateGames : List Game := [Game.mk [("80.0")], Game.mk [("90.0")]]

/-- Example games for a longest-class header with values 12, 45, 3. -/
def lngGames : List Game := [Game.mk [("12")], Game.mk [("45")], Game.mk [("3")]]

/-- Example games where the single column is numeric in 2 of 3 games. -/
def sparseGames : List Game := [Game.mk [("10")], Game.mk [("x")], Game.mk [("20")]]

/-! ## Threshold filter (src/nfl_stats/filters.py) -/

/-- Ordered list of acceptable header spellings for a canonical stat and
optional position, from `check_game_threshold` (separate position tables
for yards and touchdowns, a flat table otherwise, defaulting to the stat
name itself). -/
def possibleHeadersFor (threshold_stat : String) (position : Option String) : List String :=
  if threshold_stat = ("yards") then
    if position = some ("WR") ∨ position = some ("TE") then
      [("Yds"), ("Receiving Yards"), ("Rec Yds")]
    else if position = some ("RB") ∨ position = some ("FB") then
      [("Yds"), ("Rushing Yards"), ("Rush Yds")]
    else if position = some ("QB") then
      [("Yds"), ("Passing Yards"), ("Pass Yds")]
    else
      [("Yds"), ("Yards")]
  else if threshold_stat = ("touchdowns") then
    if position = some ("WR") ∨ position = some ("TE") then
      [("TD"), ("Rec TD"), ("Receiving TD")]
    else if position = some ("RB") ∨ position = some ("FB") then
      [("TD"), ("Rush TD"), ("Rushing TD")]
    else if position = some ("QB") then
      [("TD"), ("Pass TD"), ("Passing TD")]
    else
      [("TD"), ("Touchdowns")]
  else if threshold_stat = ("receptions") then [("Rec"), ("Receptions")]
  else if threshold_stat = ("sacks") then [("Sack"), ("Sacks")]
  else if threshold_stat = ("tackles") then [("Tot"), ("Total Tackles"), ("Tackles")]
  else if threshold_stat = ("interceptions") then [("INT"), ("Interceptions")]
  else [threshold_stat]

/-- Model of `check_game_threshold(game, headers, stat, value, position)`:
scans the headers with their index and succeeds when some acceptable
header has a column inside the stats row whose cleaned value parses to a
number reaching the threshold (non-numeric cells are skipped). -/
def check_game_threshold (game : Game) (headers : List String)
    (threshold_stat : String) (threshold_value : ℚ) (position : Option String) : Bool :=
  let possible := possibleHeadersFor threshold_stat position
  headers.enum.any (fun ih =>
    if ih.2 ∈ possible then
      match game.stats[ih.1]? with
      | none => false
      | some val =>
        match cellVal? val with
        | none => false
        | some v => decide (threshold_value ≤ v)
    else false)

/-- Model of `count_games_meeting_threshold(games, headers, stat, value)`:
bulk count looping over the games, calling the single-game check with the
default position argument (None). -/
def count_games_meeting_threshold (games : List Game) (headers : List String)
    (threshold_stat : String) (threshold_value : ℚ) : ℕ :=
  games.foldl
    (fun count g =>
      if check_game_threshold g headers threshold_stat threshold_value none
      then count + 1 else count) 0

/-! ## Reference data (src/nfl_stats/data.py) -/

/-- Team record from the static 32-entry table in `get_teams`. -/
structure Team where
  name : String
  abbr : String
  id : String
  deriving Repr, DecidableEq

/-- Static list of NFL teams returned by `get_teams()`. -/
def get_teams : List Team :=
  [ Team.mk ("Arizona Cardinals") ("ARI") ("22")
  , Team.mk ("Atlanta Falcons") ("ATL") ("1")
  , Team.mk ("Baltimore Ravens") ("BAL") ("33")
  , Team.mk ("Buffalo Bills") ("BUF") ("2")
  , Team.mk ("Carolina Panthers") ("CAR") ("29")
  , Team.mk ("Chicago Bears") ("CHI") ("3")
  , Team.mk ("Cincinnati Bengals") ("CIN") ("4")
  , Team.mk ("Cleveland Browns") ("CLE") ("5")
  , Team.mk ("Dallas Cowboys") ("DAL") ("6")
  , Team.mk ("Denver Broncos") ("DEN") ("7")
  , Team.mk ("Detroit Lions") ("DET") ("8")
  , Team.mk ("Green Bay Packers") ("GB") ("9")
  , Team.mk ("Houston Texans") ("HOU") ("34")
  , Team.mk ("Indianapolis Colts") ("IND") ("11")
  , Team.mk ("Jacksonville Jaguars") ("JAX") ("30")
  , Team.mk ("Kansas City Chiefs") ("KC") ("12")
  , Team.mk ("Las Vegas Raiders") ("LV") ("13")
  , Team.mk ("Los Angeles Chargers") ("LAC") ("24")
  , Team.mk ("Los Angeles Rams") ("LAR") ("14")
  , Team.mk ("Miami Dolphins") ("MIA") ("15")
  , Team.mk ("Minnesota Vikings") ("MIN") ("16")
  , Team.mk ("New England Patriots") ("NE") ("17")
  , Team.mk ("New Orleans Saints") ("NO") ("18")
  , Team.mk ("New York Giants") ("NYG") ("19")
  , Team.mk ("New York Jets") ("NYJ") ("20")
  , Team.mk ("Philadelphia Eagles") ("PHI") ("21")
  , Team.mk ("Pittsburgh Steelers") ("PIT") ("23")
  , Team.mk ("San Francisco 49ers") ("SF") ("25")
  , Team.mk ("Seattle Seahawks") ("SEA") ("26")
  , Team.mk ("Tampa Bay Buccaneers") ("TB") ("27")
  , Team.mk ("Tennessee Titans") ("TEN") ("10")
  , Team.mk ("Washington Commanders") ("WAS") ("28")
  ]

/-- Player record as cached from the external players directory
(`load_players`): the fields the resolver reads. -/
structure Player where
  display_name : String
  espn_id : String
  position : String
  status : String
  deriving Repr, DecidableEq

/-! ## More string helpers -/

/-- Model of Python `str.lower()` (ASCII inputs). -/
def lowerStr (s : String) : String := String.mk (s.data.map Char.toLower)

/-- Model of Python `str.strip()`. -/
def strStrip (s : String) : String :=
  String.mk (((s.data.dropWhile Char.isWhitespace).reverse.dropWhile Char.isWhitespace).reverse)

/-- Occurrence test for a pattern anywhere inside a character list. -/
def subOccurs (pat : List Char) : List Char → Bool
  | [] => pat.isPrefixOf []
  | c :: cs => pat.isPrefixOf (c :: cs) || subOccurs pat cs

/-- Model of Python `pat in s` for strings. -/
def strContains (s pat : String) : Bool := subOccurs pat.data s.data

/-- Model of Python `s.startswith(pat)`. -/
def strStartsWith (s pat : String) : Bool := pat.data.isPrefixOf s.data

/-- Model of Python `int(s)` for the nonnegative numeric ids appearing in
the directory; `none` models the `ValueError` branch the caller catches. -/
def parseNat? (s : String) : Option ℕ :=
  if s.data ≠ [] ∧ s.data.all Char.isDigit then some (digitsVal s.data) else none

/-- Word accumulator for `str.split()`. -/
def wordsAux : List Char → List Char → List String
  | [], acc => if acc = [] then [] else [String.mk acc.reverse]
  | c :: cs, acc =>
    if c.isWhitespace then
      (if acc = [] then wordsAux cs [] else String.mk acc.reverse :: wordsAux cs [])
    else wordsAux cs (c :: acc)

/-- Model of Python `str.split()` (split on whitespace runs, no empties). -/
def splitWords (s : String) : List String := wordsAux s.data []

/-- Last whitespace-separated word of a string (`s.split()[-1]`). -/
def lastWord (s : String) : String := (splitWords s).getLastD ("")

/-- Stable insertion into a descending-sorted list: the new element goes
after every element it does not strictly beat, which reproduces the
stability guarantee of Python `sort(key=..., reverse=True)`. -/
def insertDescBy {A : Type} (le : A -> A -> Bool) (x : A) : List A → List A
  | [] => [x]
  | y :: ys => if le x y then y :: insertDescBy le x ys else x :: y :: ys

/-- Stable descending sort (extensionally the Python stable sort with
`reverse=True` for the given key comparison `le x y = key x ≤ key y`). -/
def sortDescBy {A : Type} (le : A -> A -> Bool) (l : List A) : List A :=
  l.foldl (fun acc x => insertDescBy le x acc) []

/-! ## Entity resolver (src/nfl_stats/search.py) -/

/-- Model of `rapidfuzz.process.extract(query, choices, scorer, limit)`:
every choice is scored, the list is sorted by score descending (stable)
and truncated to `limit` entries of (choice, score, index).  The scorer
(rapidfuzz WRatio, an external library function) is a parameter. -/
def processExtract (scorer : String → String → ℚ) (query : String)
    (choices : List String) (limit : ℕ) : List (String × ℚ × ℕ) :=
  let scored := choices.enum.map (fun ic => (ic.2, scorer query ic.2, ic.1))
  (sortDescBy (fun a b => decide (a.2.1 ≤ b.2.1)) scored).take limit

/-- Model of `rapidfuzz.process.extractOne(query, choices, scorer)`: best
score, first index winning ties, `none` on an empty choice list. -/
def extractOne (scorer : String → String → ℚ) (query : String)
    (choices : List String) : Option (String × ℚ × ℕ) :=
  (choices.enum).foldl
    (fun best ic =>
      match best with
      | none => some (ic.2, scorer query ic.2, ic.1)
      | some b => if scorer query ic.2 > b.2.1 then some (ic.2, scorer query ic.2, ic.1) else some b)
    none

/-- Typo and nickname substring correction table of `search_player`, in
insertion order. -/
def typo_map : List (String × String) :=
  [ (("mahomet"), ("mahomes"))
  , (("mahommes"), ("mahomes"))
  , (("mahomez"), ("mahomes"))
  , (("lamar"), ("lamar jackson"))
  , (("josh"), ("josh allen"))
  , (("hurts"), ("jalen hurts"))
  , (("burrow"), ("joe burrow"))
  , (("kelce"), ("travis kelce"))
  , (("brady"), ("tom brady"))
  , (("tyreek"), ("tyreek hill"))
  , (("ceedee"), ("ceedee lamb"))
  , (("aj"), ("aj brown"))
  ]

/-- Typo correction step of `search_player`: the first table entry whose
key occurs inside the lowered stripped query rewrites the query; with no
hit the query is left as typed. -/
def applyTypos (query : String) : String :=
  let query_lower := strStrip (lowerStr query)
  match typo_map.find? (fun kv => strContains query_lower kv.1) with
  | some kv => strReplace query_lower kv.1 kv.2
  | none => query

/-- Name normalisation of `search_player`: lower-case and strip periods. -/
def normName (name : String) : String := strReplace (lowerStr name) (".") ("")

/-- Popularity override table of `relevance_score`, in insertion order. -/
def popular_players : List (String × String) :=
  [ (("lamar"), ("jackson"))
  , (("josh"), ("allen"))
  , (("hurts"), ("jalen"))
  , (("mahomes"), ("patrick"))
  , (("allen"), ("josh"))
  , (("burrow"), ("joe"))
  , (("jackson"), ("lamar"))
  , (("kelce"), ("travis"))
  , (("brady"), ("tom"))
  , (("rice"), ("jerry"))
  ]

/-- Composite relevance key of `search_player` (fuzzy score plus prefix,
status, position, popularity and id-tiebreak bonuses). -/
def relevance_score (query_lower : String) (item : Player × ℚ) : ℚ :=
  let p := item.1
  let score := item.2
  let name_lower := lowerStr p.display_name
  let rel1 : ℚ :=
    if strStartsWith name_lower query_lower then 50
    else if strContains name_lower query_lower then 20 else 0
  let status := lowerStr p.status
  let rel2 : ℚ := if status = ("active") then 30 else if status ≠ ("") then 10 else 0
  let rel3 : ℚ :=
    (if p.position ∈ [("QB"), ("WR"), ("RB"), ("TE"), ("K")] then 15 else 0)
      + (if p.position = ("QB") then 10 else 0)
  let rel4 : ℚ :=
    if popular_players.any (fun kv => query_lower = kv.1 && strContains name_lower kv.2)
    then 100 else 0
  let rel5 : ℚ :=
    match parseNat? p.espn_id with
    | some n => (n : ℚ) / 10000000
    | none => 0
  score + (rel1 + rel2 + rel3 + rel4 + rel5)

/-- Model of `search_player(query, limit)` over an explicit player
directory and WRatio scorer: typo correction, normalisation, fuzzy
extraction, the >60 score filter, and the stable descending re-rank by
composite relevance. -/
def search_player (wratio : String → String → ℚ) (players : List Player)
    (query : String) (limit : ℕ) : List (Player × ℚ) :=
  if players = [] then [] else
  let query1 := applyTypos query
  let normalized_names := players.map (fun p => normName p.display_name)
  let query_normalized := normName query1
  let results := processExtract wratio query_normalized normalized_names limit
  let matched_players := results.filterMap
    (fun t => if t.2.1 > 60 then (players[t.2.2]?).map (fun p => (p, t.2.1)) else none)
  let query_lower := lowerStr query1
  sortDescBy
    (fun a b => decide (relevance_score query_lower a ≤ relevance_score query_lower b))
    matched_players

/-- Model of `search_team(query)`: exact abbreviation match first, then a
fuzzy whole-string match against full team names accepted above score
70. -/
def search_team (wratio : String → String → ℚ) (query : String) : Option Team :=
  let teams := get_teams
  match teams.find? (fun t => lowerStr t.abbr = lowerStr query) with
  | some t => some t
  | none =>
    match extractOne wratio query (teams.map (fun t => t.name)) with
    | some r => if r.2.1 > 70 then teams[r.2.2]? else none
    | none => none

/-- Resolved entity: team or player (`identify_entity` returns
`('team', t)`, `('player', p)` or `(None, None)`, the latter modelled as
`none`). -/
inductive Entity where
  | team (t : Team)
  | player (p : Player)
  deriving Repr, DecidableEq

/-- Model of `identify_entity(query)`: team search first, then player
search with limit 20, else the none result. -/
def identify_entity (wratio : String → String → ℚ) (players : List Player)
    (query : String) : Option Entity :=
  match search_team wratio query with
  | some t => some (Entity.team t)
  | none =>
    match (search_player wratio players query 20).head? with
    | some pr => some (Entity.player pr.1)
    | none => none

/-! ## Word-boundary pattern engine (model of the `re` usages in parser.py)

Every regex used by `parse_query` is a word-boundary-delimited alternation
of literals, possibly with captures of digit runs or trailing word
sequences.  The engine below implements exactly that: an alternation is an
ordered list of literal character sequences (ordered as in the regex, with
the greedy `s?` / `\s*` expansions enumerated in the order the regex
engine would try them; `\s+` and `\s*` between words are modelled as one
and zero-or-one space, which is exact for all single-spaced text).
Matching is case-insensitive, as every call in the source passes
`re.IGNORECASE`. -/

/-- Word character test (`\w` over the ASCII inputs the parser handles). -/
def isWordChar (c : Char) : Bool := c.isAlphanum || c == '_'

/-- Case-insensitive literal prefix strip: returns the rest on success. -/
def stripCI : List Char → List Char → Option (List Char)
  | [], s => some s
  | _ :: _, [] => none
  | p :: ps, c :: cs => if p.toLower == c.toLower then stripCI ps cs else none

/-- Word-boundary test after a match whose last character is `last`. -/
def boundaryAfter (last : Char) : List Char → Bool
  | [] => isWordChar last
  | c :: _ => isWordChar last != isWordChar c

/-- First alternative matching at the head of `s` with a word boundary
after it; returns the last matched character and the rest (regex
alternation: alternatives are tried left to right with backtracking into
the alternation when the trailing boundary fails). -/
def tryAlts : List (List Char) → List Char → Option (Char × List Char)
  | [], _ => none
  | a :: as, s =>
    match stripCI a s with
    | some r =>
      if boundaryAfter (a.getLastD ' ') r then some (a.getLastD ' ', r) else tryAlts as s
    | none => tryAlts as s

/-- Search scan for `\b(alt1|alt2|...)\b`: `prevW` tracks whether the
previous character is a word character (boundary before the match). -/
def findPatAux (alts : List (List Char)) : List Char → Bool → Bool
  | [], _ => false
  | c :: cs, prevW =>
    if !prevW && (tryAlts alts (c :: cs)).isSome then true
    else findPatAux alts cs (isWordChar c)

/-- Model of `re.search(r'\b(...)\b', q, re.IGNORECASE) is not None`. -/
def patFind (alts : List String) (q : String) : Bool :=
  findPatAux (alts.map (fun a => a.data)) q.data false

/-- Substitution scan for `re.sub(r'\b(...)\b', '', q, re.IGNORECASE)`:
every non-overlapping occurrence is removed, scanning left to right; the
fuel is the string length (each step consumes at least one character). -/
def subPatAux (alts : List (List Char)) : ℕ → List Char → Bool → List Char
  | _, [], _ => []
  | 0, s, _ => s
  | fuel+1, c :: cs, prevW =>
    match (if prevW then none else tryAlts alts (c :: cs)) with
    | some (last, rest) => subPatAux alts fuel rest (isWordChar last)
    | none => c :: subPatAux alts fuel cs (isWordChar c)

/-- Model of `re.sub(r'\b(...)\b', '', q, re.IGNORECASE)`. -/
def patSub (alts : List String) (q : String) : String :=
  String.mk (subPatAux (alts.map (fun a => a.data)) q.data.length q.data false)

/-- Split scan for `re.split(r'\b(?:...)\b', q, re.IGNORECASE)`. -/
def splitPatAux (alts : List (List Char)) : ℕ → List Char → Bool → List Char → List String
  | _, [], _, acc => [String.mk acc.reverse]
  | 0, s, _, acc => [String.mk (acc.reverse ++ s)]
  | fuel+1, c :: cs, prevW, acc =>
    match (if prevW then none else tryAlts alts (c :: cs)) with
    | some (last, rest) => String.mk acc.reverse :: splitPatAux alts fuel rest (isWordChar last) []
    | none => splitPatAux alts fuel cs (isWordChar c) (c :: acc)

/-- Model of `re.split` over a word-boundary alternation. -/
def patSplit (alts : List String) (q : String) : List String :=
  splitPatAux (alts.map (fun a => a.data)) q.data.length q.data false []

/-- Maximal digit prefix of a character list (`\d+`, greedy). -/
def digitsPrefix : List Char → List Char × List Char
  | [] => ([], [])
  | c :: cs =>
    if c.isDigit then
      let r := digitsPrefix cs
      (c :: r.1, r.2)
    else ([], c :: cs)

/-- Maximal whitespace prefix of a character list (`\s+`/`\s*`, greedy). -/
def spacesPrefix : List Char → List Char × List Char
  | [] => ([], [])
  | c :: cs =>
    if c.isWhitespace then
      let r := spacesPrefix cs
      (c :: r.1, r.2)
    else ([], c :: cs)

/-- Maximal word-character prefix (`\w+`, greedy). -/
def wordPrefix : List Char → List Char × List Char
  | [] => ([], [])
  | c :: cs =>
    if isWordChar c then
      let r := wordPrefix cs
      (c :: r.1, r.2)
    else ([], c :: cs)

/-- Matcher for `\b(20\d{2})\b` at the head of the text: the year rule. -/
def tryYear : List Char → Option (List Char)
  | '2' :: '0' :: c :: d :: rest =>
    if c.isDigit && d.isDigit && (match rest with | [] => true | e :: _ => !isWordChar e) then
      some ['2', '0', c, d]
    else none
  | _ => none

/-- Search scan for the year pattern; returns the matched text. -/
def findYearAux : List Char → Bool → Option (List Char)
  | [], _ => none
  | c :: cs, prevW =>
    match (if prevW then none else tryYear (c :: cs)) with
    | some y => some y
    | none => findYearAux cs (isWordChar c)

/-- Model of `re.search(r'\b(20\d{2})\b', query)`: the matched year text. -/
def findYear (q : String) : Option String :=
  (findYearAux q.data false).map String.mk

/-- Matcher for `\bweek\s+(\d+)\b` at the head of the text: returns the
captured number and the rest after the match. -/
def tryWeek (s : List Char) : Option (ℕ × List Char) :=
  match stripCI [ 'w', 'e', 'e', 'k' ] s with
  | none => none
  | some r1 =>
    let sp := spacesPrefix r1
    let ds := digitsPrefix sp.2
    if (!sp.1.isEmpty) && (!ds.1.isEmpty)
        && (match ds.2 with | [] => true | e :: _ => !isWordChar e) then
      some (digitsVal ds.1, ds.2)
    else none

/-- Search scan for the week pattern: the first captured number. -/
def findWeekAux : List Char → Bool → Option ℕ
  | [], _ => none
  | c :: cs, prevW =>
    match (if prevW then none else tryWeek (c :: cs)) with
    | some nr => some nr.1
    | none => findWeekAux cs (isWordChar c)

/-- Substitution scan for `re.sub(r'\bweek\s+\d+\b', '', query)`. -/
def subWeekAux : ℕ → List Char → Bool → List Char
  | _, [], _ => []
  | 0, s, _ => s
  | fuel+1, c :: cs, prevW =>
    match (if prevW then none else tryWeek (c :: cs)) with
    | some nr => subWeekAux fuel nr.2 true
    | none => c :: subWeekAux fuel cs (isWordChar c)

/-- Captured word-boundary alternation (`\b(a1|a2|...)\s*tail\b` style
patterns pre-expanded into literal-and-value pairs): first pair matching
at the head of the text, boundary after, returning its value. -/
def tryAltsCap {B : Type} : List (List Char × B) → List Char → Option B
  | [], _ => none
  | (a, v) :: as, s =>
    match stripCI a s with
    | some r => if boundaryAfter (a.getLastD ' ') r then some v else tryAltsCap as s
    | none => tryAltsCap as s

/-- Search scan for a captured alternation. -/
def capFindAux {B : Type} (alts : List (List Char × B)) : List Char → Bool → Option B
  | [], _ => none
  | c :: cs, prevW =>
    match (if prevW then none else tryAltsCap alts (c :: cs)) with
    | some v => some v
    | none => capFindAux alts cs (isWordChar c)

/-- Model of a captured `re.search` over an expanded alternation table. -/
def capFind {B : Type} (alts : List (String × B)) (q : String) : Option B :=
  capFindAux (alts.map (fun av => (av.1.data, av.2))) q.data false

/-- Model of Python `str.upper()` (ASCII). -/
def upperStr (s : String) : String := String.mk (s.data.map Char.toUpper)

/-- Stat-noun alternatives of the threshold pattern, in regex order. -/
def thresholdStatAlts : List String :=
  [("yard"), ("td"), ("touchdown"), ("reception"), ("rec"), ("sack"), ("tackle"),
   ("int"), ("interception")]

/-- First stat-noun alternative that is a case-insensitive prefix of the
text (the threshold regex has no boundary after the group). -/
def tryStatNoun : List String → List Char → Option (String × List Char)
  | [], _ => none
  | a :: as, s =>
    match stripCI a.data s with
    | some r => some (a, r)
    | none => tryStatNoun as s

/-- Matcher for `(\d+)\+?\s*(stat-noun)` at the head of the text (the
threshold search pattern has no word boundaries at all). -/
def tryThreshold (s : List Char) : Option (ℕ × String × List Char) :=
  let ds := digitsPrefix s
  if ds.1.isEmpty then none else
  let r2 := match ds.2 with | '+' :: t => t | other => other
  let r3 := (spacesPrefix r2).2
  match tryStatNoun thresholdStatAlts r3 with
  | some tr => some (digitsVal ds.1, tr.1, tr.2)
  | none => none

/-- Search scan for the threshold pattern: value and captured stat noun. -/
def findThresholdAux : List Char → Option (ℕ × String)
  | [] => none
  | c :: cs =>
    match tryThreshold (c :: cs) with
    | some r => some (r.1, r.2.1)
    | none => findThresholdAux cs

/-- Matcher for the removal pattern `\d+\+?\s*(stat-noun)s?`. -/
def tryThresholdSub (s : List Char) : Option (List Char) :=
  match tryThreshold s with
  | some r =>
    some (match r.2.2 with | 's' :: t => t | 'S' :: t => t | other => other)
  | none => none

/-- Substitution scan for the threshold removal pattern. -/
def subThresholdAux : ℕ → List Char → List Char
  | _, [] => []
  | 0, s => s
  | fuel+1, c :: cs =>
    match tryThresholdSub (c :: cs) with
    | some rest => subThresholdAux fuel rest
    | none => c :: subThresholdAux fuel cs

/-- Stat alternatives of the "multiple" patterns, in regex order. -/
def multipleStatAlts : List String :=
  [("td"), ("touchdown"), ("sack"), ("int"), ("interception")]

/-- Matcher for `multiple\s+(stat)` at the head of the text. -/
def tryMultiple (s : List Char) : Option (String × List Char) :=
  match stripCI ("multiple".data) s with
  | none => none
  | some r1 =>
    let sp := spacesPrefix r1
    if sp.1.isEmpty then none else
    tryStatNoun multipleStatAlts sp.2

/-- Search for `\bmultiple\s+(...)` (leading word boundary, line 458). -/
def findMultipleB : List Char → Bool → Bool
  | [], _ => false
  | c :: cs, prevW =>
    if !prevW && (tryMultiple (c :: cs)).isSome then true
    else findMultipleB cs (isWordChar c)

/-- Search for `multiple\s+(...)s?` without a leading boundary (line 459):
the captured stat. -/
def findMultipleNB : List Char → Option String
  | [] => none
  | c :: cs =>
    match tryMultiple (c :: cs) with
    | some r => some r.1
    | none => findMultipleNB cs

/-- Stat alternation of the removal pattern `...(stat)s?\b`: each
alternative is tried with the greedy optional `s` and the trailing
boundary, backtracking into the alternation on failure. -/
def tryMultStatSub : List String → List Char → Option (List Char)
  | [], _ => none
  | a :: as, s =>
    match (match stripCI a.data s with
      | some r =>
        match r with
        | 's' :: t => if boundaryAfter 's' t then some t else none
        | 'S' :: t => if boundaryAfter 's' t then some t else none
        | other => if boundaryAfter 'a' other then some other else none
      | none => none) with
    | some t => some t
    | none => tryMultStatSub as s

/-- Matcher for the removal pattern `\bmultiple\s+(stat)s?\b`. -/
def tryMultipleSub (s : List Char) : Option (List Char) :=
  match stripCI ("multiple".data) s with
  | none => none
  | some r1 =>
    let sp := spacesPrefix r1
    if sp.1.isEmpty then none else
    tryMultStatSub multipleStatAlts sp.2

/-- Substitution scan for the "multiple" removal pattern. -/
def subMultipleAux : ℕ → List Char → Bool → List Char
  | _, [], _ => []
  | 0, s, _ => s
  | fuel+1, c :: cs, prevW =>
    match (if prevW then none else tryMultipleSub (c :: cs)) with
    | some rest => subMultipleAux fuel rest true
    | none => c :: subMultipleAux fuel cs (isWordChar c)

/-- Keyword alternatives of the top-N limit pattern. -/
def limitKeywords : List String := [("top"), ("best"), ("worst")]

/-- Matcher for `(?:top|best|worst)\s+(\d+)\b` at the head of the text. -/
def tryLimitKw : List String → List Char → Option (ℕ × List Char)
  | [], _ => none
  | kw :: kws, s =>
    match (match stripCI kw.data s with
      | some r1 =>
        let sp := spacesPrefix r1
        let ds := digitsPrefix sp.2
        if (!sp.1.isEmpty) && (!ds.1.isEmpty)
            && (match ds.2 with | [] => true | e :: _ => !isWordChar e) then
          some (digitsVal ds.1, ds.2)
        else none
      | none => none) with
    | some r => some r
    | none => tryLimitKw kws s

/-- Search scan for `\b(?:top|best|worst)\s+(\d+)\b`. -/
def findLimitAux : List Char → Bool → Option ℕ
  | [], _ => none
  | c :: cs, prevW =>
    match (if prevW then none else tryLimitKw limitKeywords (c :: cs)) with
    | some nr => some nr.1
    | none => findLimitAux cs (isWordChar c)

/-- Substitution scan for the limit removal pattern. -/
def subLimitAux : ℕ → List Char → Bool → List Char
  | _, [], _ => []
  | 0, s, _ => s
  | fuel+1, c :: cs, prevW =>
    match (if prevW then none else tryLimitKw limitKeywords (c :: cs)) with
    | some nr => subLimitAux fuel nr.2 true
    | none => c :: subLimitAux fuel cs (isWordChar c)

/-- Keyword alternatives of the opponent pattern `vs\.?|versus|against`,
in greedy regex order. -/
def opponentKeywords : List String := [("vs."), ("vs"), ("versus"), ("against")]

/-- Greedy capture of the trailing `(?:\s+\w+)*` part with its original
whitespace (fuel-bounded; each round consumes at least one character). -/
def captureWordsAux : ℕ → List Char → List Char
  | 0, _ => []
  | fuel+1, s =>
    let sp := spacesPrefix s
    let ws := wordPrefix sp.2
    if (!sp.1.isEmpty) && (!ws.1.isEmpty) then sp.1 ++ ws.1 ++ captureWordsAux fuel ws.2
    else []

/-- Greedy capture of `\w+(?:\s+\w+)*` at the head of the text. -/
def captureWords (s : List Char) : Option (List Char) :=
  let ws := wordPrefix s
  if ws.1.isEmpty then none else some (ws.1 ++ captureWordsAux s.length ws.2)

/-- Matcher for `(?:vs\.?|versus|against)\s+(?:the\s+)?(\w+(?:\s+\w+)*)`
at the head of the text: the captured opponent phrase (the optional
`the\s+` is greedy with fallback, like the regex). -/
def tryOpponentKw : List String → List Char → Option (List Char)
  | [], _ => none
  | kw :: kws, s =>
    match (match stripCI kw.data s with
      | some r1 =>
        let sp := spacesPrefix r1
        if sp.1.isEmpty then none else
        let withThe : Option (List Char) :=
          match stripCI ("the".data) sp.2 with
          | some rt =>
            let sp2 := spacesPrefix rt
            if sp2.1.isEmpty then none else captureWords sp2.2
          | none => none
        match withThe with
        | some cap => some cap
        | none => captureWords sp.2
      | none => none) with
    | some r => some r
    | none => tryOpponentKw kws s

/-- Search scan for the opponent pattern (leading word boundary). -/
def findOpponentAux : List Char → Bool → Option (List Char)
  | [], _ => none
  | c :: cs, prevW =>
    match (if prevW then none else tryOpponentKw opponentKeywords (c :: cs)) with
    | some cap => some cap
    | none => findOpponentAux cs (isWordChar c)

/-- Model of the opponent capture search: the captured phrase. -/
def findOpponent (q : String) : Option String :=
  (findOpponentAux q.data false).map String.mk

/-- Matcher for the opponent removal pattern
`\b(?:vs\.?|versus|against)\s+(?:the\s+)?{opponent}\b`. -/
def tryOpponentSubKw (opp : List Char) : List String → List Char → Option (List Char)
  | [], _ => none
  | kw :: kws, s =>
    match (match stripCI kw.data s with
      | some r1 =>
        let sp := spacesPrefix r1
        if sp.1.isEmpty then none else
        let tail : Option (List Char) :=
          match (match stripCI ("the".data) sp.2 with
            | some rt =>
              let sp2 := spacesPrefix rt
              if sp2.1.isEmpty then none else
              match stripCI opp sp2.2 with
              | some r3 => if boundaryAfter (opp.getLastD ' ') r3 then some r3 else none
              | none => none
            | none => none) with
          | some r => some r
          | none =>
            match stripCI opp sp.2 with
            | some r3 => if boundaryAfter (opp.getLastD ' ') r3 then some r3 else none
            | none => none
        tail
      | none => none) with
    | some r => some r
    | none => tryOpponentSubKw opp kws s

/-- Substitution scan for the opponent removal pattern. -/
def subOpponentAux (opp : List Char) : ℕ → List Char → Bool → List Char
  | _, [], _ => []
  | 0, s, _ => s
  | fuel+1, c :: cs, prevW =>
    match (if prevW then none else tryOpponentSubKw opp opponentKeywords (c :: cs)) with
    | some rest => subOpponentAux opp fuel rest (isWordChar (opp.getLastD ' '))
    | none => c :: subOpponentAux opp fuel cs (isWordChar c)

/-- Model of the opponent removal substitution. -/
def subOpponent (opp : String) (q : String) : String :=
  String.mk (subOpponentAux opp.data q.data.length q.data false)

/-- Position alternatives of the depth-position pattern, in regex order. -/
def depthPositionAlts : List String :=
  [("qb"), ("rb"), ("wr"), ("te"), ("k"), ("p"), ("lb"), ("cb"), ("db"), ("de"),
   ("dt"), ("dl"), ("s")]

/-- Matcher for `(qb|rb|...)(\d)\b` at the head of the text: the position
(as in the table) and the single digit. -/
def tryDepthPos : List String → List Char → Option (String × ℕ)
  | [], _ => none
  | pos :: rest, s =>
    match (match stripCI pos.data s with
      | some (d :: r2) =>
        if d.isDigit && (match r2 with | [] => true | e :: _ => !isWordChar e) then
          some (pos, d.toNat - 48)
        else none
      | _ => none) with
    | some r => some r
    | none => tryDepthPos rest s

/-- Search scan for the depth-position pattern (leading word boundary). -/
def findDepthPosAux : List Char → Bool → Option (String × ℕ)
  | [], _ => none
  | c :: cs, prevW =>
    match (if prevW then none else tryDepthPos depthPositionAlts (c :: cs)) with
    | some r => some r
    | none => findDepthPosAux cs (isWordChar c)

/-- Matcher for the removal pattern `\b{pos}\d\b`. -/
def tryDepthPosSub (pos : List Char) (s : List Char) : Option (List Char) :=
  match stripCI pos s with
  | some (d :: r2) =>
    if d.isDigit && (match r2 with | [] => true | e :: _ => !isWordChar e) then some r2
    else none
  | _ => none

/-- Substitution scan for the depth-position removal pattern. -/
def subDepthPosAux (pos : List Char) : ℕ → List Char → Bool → List Char
  | _, [], _ => []
  | 0, s, _ => s
  | fuel+1, c :: cs, prevW =>
    match (if prevW then none else tryDepthPosSub pos (c :: cs)) with
    | some rest => subDepthPosAux pos fuel rest true
    | none => c :: subDepthPosAux pos fuel cs (isWordChar c)

/-- Substitution scan for `re.sub(r'\b\d+\b', '', query)`. -/
def subNumbersAux : ℕ → List Char → Bool → List Char
  | _, [], _ => []
  | 0, s, _ => s
  | fuel+1, c :: cs, prevW =>
    match (if prevW then none else
      (let ds := digitsPrefix (c :: cs)
       if (!ds.1.isEmpty) && (match ds.2 with | [] => true | e :: _ => !isWordChar e)
       then some ds.2 else none)) with
    | some rest => subNumbersAux fuel rest true
    | none => c :: subNumbersAux fuel cs (isWordChar c)

/-- Model of the standalone-number removal. -/
def subNumbers (q : String) : String :=
  String.mk (subNumbersAux q.data.length q.data false)

/-! ## Intent extractor (src/nfl_stats/parser.py, parse_query) -/

/-- Structured intent produced by `parse_query`: dict keys that are only
present after a rule fires are modelled with `Option` or a `Bool`/list
default matching the initialisation at the top of the function.  The
`threshold` sub-dict is (value, stat). -/
structure Intent where
  original_query : String
  season : Option String := none
  week : Option ℕ := none
  season_type : ℕ := 2
  is_playoffs : Bool := false
  is_superbowl : Bool := false
  is_aggregation : Bool := false
  is_rookie : Bool := false
  is_league_leaders : Bool := false
  is_comparison : Bool := false
  comparison_players : List String := []
  stat_category : Option String := none
  limit : ℕ := 10
  is_career : Bool := false
  is_draft : Bool := false
  draft_round : Option ℕ := none
  is_bio : Bool := false
  is_injury : Bool := false
  is_trending : Bool := false
  is_fantasy_points : Bool := false
  team_context : Option Team := none
  is_roster : Bool := false
  roster_position : Option String := none
  roster_depth : Option ℕ := none
  is_awards : Bool := false
  award_type : Option String := none
  award_year_query : Bool := false
  game_type : Option String := none
  month_filter : Option String := none
  prime_time : Bool := false
  quarter_filter : Option ℕ := none
  threshold : Option (ℕ × String) := none
  opponent_team : Option Team := none
  multi_player : Option (List String × String) := none
  is_longest : Bool := false
  longest_type : Option String := none
  clean_query : String := ""
  deriving Repr, DecidableEq

/-! Alternation tables, each expanded from its regex in backtracking
order (alternatives left to right, `\s*`/`s?` greedy-first). -/

/-- Alternatives of `(last|previous)\s*(year|season)`. -/
def lastSeasonAlts : List String :=
  [("last year"), ("last season"), ("lastyear"), ("lastseason"),
   ("previous year"), ("previous season"), ("previousyear"), ("previousseason")]

/-- Alternatives of `(this|current)\s*(year|season)`. -/
def thisSeasonAlts : List String :=
  [("this year"), ("this season"), ("thisyear"), ("thisseason"),
   ("current year"), ("current season"), ("currentyear"), ("currentseason")]

/-- Alternatives of `(playoff|playoffs|postseason)`. -/
def playoffAlts : List String := [("playoff"), ("playoffs"), ("postseason")]

/-- Alternatives of `(super\s*bowls?|sb)`. -/
def superbowlAlts : List String :=
  [("super bowls"), ("super bowl"), ("superbowls"), ("superbowl"), ("sb")]

/-- Alternatives of `(career|lifetime|all[\s-]?time)`. -/
def careerAlts : List String :=
  [("career"), ("lifetime"), ("all time"), ("all-time"), ("alltime")]

/-- Alternatives of `(draft|drafted|draft\s*pick|draft\s*position)`. -/
def draftAlts : List String :=
  [("draft"), ("drafted"), ("draft pick"), ("draftpick"),
   ("draft position"), ("draftposition")]

/-- Captured alternatives of the draft-round pattern `(first|1st|...)\s*round`. -/
def roundCapAlts : List (String × ℕ) :=
  [ (("first round"), 1), (("firstround"), 1), (("1st round"), 1), (("1stround"), 1)
  , (("second round"), 2), (("secondround"), 2), (("2nd round"), 2), (("2ndround"), 2)
  , (("third round"), 3), (("thirdround"), 3), (("3rd round"), 3), (("3rdround"), 3)
  , (("fourth round"), 4), (("fourthround"), 4), (("4th round"), 4), (("4thround"), 4)
  , (("fifth round"), 5), (("fifthround"), 5), (("5th round"), 5), (("5thround"), 5)
  , (("sixth round"), 6), (("sixthround"), 6), (("6th round"), 6), (("6thround"), 6)
  , (("seventh round"), 7), (("seventhround"), 7), (("7th round"), 7), (("7thround"), 7)
  ]

/-- Alternatives of the bio pattern. -/
def bioAlts : List String :=
  [("age"), ("old"), ("college"), ("height"), ("weight"), ("bio"), ("biography")]

/-- Alternatives of the injury pattern (each a full word between
boundaries, so e.g. "injury" itself does not match `\binjur\b`). -/
def injuryAlts : List String := [("injur"), ("hurt"), ("health"), ("status")]

/-- Alternatives of the trending pattern. -/
def trendingAlts : List String :=
  [("trending"), ("hot"), ("popular"), ("adds"), ("drops"), ("waiver")]

/-- Alternatives of `(fantasy\s*points?|fantasy|points?)`. -/
def fantasyAlts : List String :=
  [("fantasy points"), ("fantasy point"), ("fantasypoints"), ("fantasypoint"),
   ("fantasy"), ("points"), ("point")]

/-- Alternatives of `(starting|starter|backup|depth\s*chart|roster|roaster)`. -/
def rosterKeywordAlts : List String :=
  [("starting"), ("starter"), ("backup"), ("depth chart"), ("depthchart"),
   ("roster"), ("roaster")]

/-- Alternatives of the awards detection pattern. -/
def awardsAlts : List String :=
  [("mvp"), ("most valuable"), ("mostvaluable"), ("opoy"), ("dpoy"), ("oroy"),
   ("droy"), ("pro bowl"), ("probowl"), ("all pro"), ("all-pro"), ("allpro"),
   ("hall of fame"), ("hall offame"), ("hallof fame"), ("halloffame"), ("hof"),
   ("awards"), ("award"), ("trophy"), ("trophies")]

/-- Alternatives of `pro\s*bowl`. -/
def probowlAlts : List String := [("pro bowl"), ("probowl")]

/-- Alternatives of `all[\s-]?pro`. -/
def allproAlts : List String := [("all pro"), ("all-pro"), ("allpro")]

/-- Alternatives of `(hall\s*of\s*fame|hof)`. -/
def hofAlts : List String :=
  [("hall of fame"), ("hall offame"), ("hallof fame"), ("halloffame"), ("hof")]

/-- Alternatives of `(when|what\s*year|which\s*year|first)`. -/
def awardYearAlts : List String :=
  [("when"), ("what year"), ("whatyear"), ("which year"), ("whichyear"), ("first")]

/-- Alternatives of the awards removal pattern (detection words plus the
year-question words plus win/won). -/
def awardsRemovalAlts : List String :=
  awardsAlts ++ [("when"), ("what year"), ("whatyear"), ("which year"),
    ("whichyear"), ("first"), ("win"), ("won")]

/-- Alternatives of the championship pattern. -/
def championshipAlts : List String :=
  [("championship"), ("conference championship"), ("conferencechampionship"),
   ("nfc championship"), ("nfcchampionship"), ("afc championship"),
   ("afcchampionship")]

/-- Alternatives of `(divisional|divisional\s*round)`. -/
def divisionalAlts : List String :=
  [("divisional"), ("divisional round"), ("divisionalround")]

/-- Alternatives of `(wild\s*card|wildcard)`. -/
def wildcardAlts : List String := [("wild card"), ("wildcard")]

/-- Month names scanned by the month filter, in order. -/
def monthNames : List String :=
  [("january"), ("february"), ("march"), ("april"), ("may"), ("june"),
   ("july"), ("august"), ("september"), ("october"), ("november"), ("december")]

/-- Alternatives of the prime-time pattern. -/
def primetimeAlts : List String :=
  [("prime time"), ("primetime"), ("night game"), ("nightgame"),
   ("sunday night"), ("sundaynight"), ("monday night"), ("mondaynight"),
   ("thursday night"), ("thursdaynight")]

/-- Captured alternatives of the quarter pattern. -/
def quarterCapAlts : List (String × ℕ) :=
  [ (("1st quarter"), 1), (("1stquarter"), 1), (("2nd quarter"), 2), (("2ndquarter"), 2)
  , (("3rd quarter"), 3), (("3rdquarter"), 3), (("4th quarter"), 4), (("4thquarter"), 4)
  , (("first quarter"), 1), (("firstquarter"), 1), (("second quarter"), 2)
  , (("secondquarter"), 2), (("third quarter"), 3), (("thirdquarter"), 3)
  , (("fourth quarter"), 4), (("fourthquarter"), 4)
  ]

/-- Alternatives of `(average|avg|averages|mean)`. -/
def aggregationAlts : List String := [("average"), ("avg"), ("averages"), ("mean")]

/-- Play nouns of the longest pattern, in regex order. -/
def longestNouns : List String :=
  [("catch"), ("reception"), ("run"), ("rush"), ("pass"), ("touchdown"), ("td"), ("play")]

/-- Captured alternatives of `(longest|biggest|furthest)\s+(noun)`. -/
def longestCapAlts : List (String × String) :=
  ([("longest"), ("biggest"), ("furthest")].flatMap (fun adj =>
    longestNouns.map (fun noun => (adj ++ (" ") ++ noun, noun))))

/-- Longest stat-type classification (`stat_type_map`). -/
def longestTypeMap : List (String × String) :=
  [ (("catch"), ("receiving")), (("reception"), ("receiving"))
  , (("run"), ("rushing")), (("rush"), ("rushing")), (("pass"), ("passing"))
  , (("touchdown"), ("any")), (("td"), ("any")), (("play"), ("any")) ]

/-- Threshold canonical stat table (`stat_map`), defaulting to the token. -/
def thresholdStatMap (tok : String) : String :=
  (([ (("yard"), ("yards")), (("yds"), ("yards")), (("td"), ("touchdowns"))
    , (("touchdown"), ("touchdowns")), (("reception"), ("receptions"))
    , (("rec"), ("receptions")), (("sack"), ("sacks")), (("tackle"), ("tackles"))
    , (("int"), ("interceptions")), (("interception"), ("interceptions"))
    ] : List (String × String)).find? (fun kv => kv.1 = tok)).elim tok (fun kv => kv.2)

/-- Canonical stat table of the "multiple" rule, defaulting to the token. -/
def multipleStatMap (tok : String) : String :=
  (([ (("td"), ("touchdowns")), (("touchdown"), ("touchdowns"))
    , (("sack"), ("sacks")), (("int"), ("interceptions"))
    , (("interception"), ("interceptions")) ] : List (String × String)).find?
    (fun kv => kv.1 = tok)).elim tok (fun kv => kv.2)

/-- Alternatives of the league-leaders trigger. -/
def leadersAlts : List String :=
  [("who"), ("leaders"), ("leader"), ("top"), ("best"), ("most"), ("highest"),
   ("lowest"), ("worst")]

/-- Ordered stat-category patterns of the league-leaders rule (touchdown
patterns before the generic yardage patterns). -/
def statPatterns : List (String × List String) :=
  [ (("passing_touchdowns"),
     [("passing tds"), ("passing td"), ("passing touchdowns"), ("passing touchdown"),
      ("passingtds"), ("passingtd"), ("passingtouchdowns"), ("passingtouchdown"),
      ("pass tds"), ("pass td"), ("pass touchdowns"), ("pass touchdown"),
      ("passtds"), ("passtd"), ("passtouchdowns"), ("passtouchdown")])
  , (("rushing_touchdowns"),
     [("rushing tds"), ("rushing td"), ("rushing touchdowns"), ("rushing touchdown"),
      ("rushingtds"), ("rushingtd"), ("rushingtouchdowns"), ("rushingtouchdown"),
      ("rush tds"), ("rush td"), ("rush touchdowns"), ("rush touchdown"),
      ("rushtds"), ("rushtd"), ("rushtouchdowns"), ("rushtouchdown")])
  , (("receiving_touchdowns"),
     [("receiving tds"), ("receiving td"), ("receiving touchdowns"), ("receiving touchdown"),
      ("receivingtds"), ("receivingtd"), ("receivingtouchdowns"), ("receivingtouchdown"),
      ("rec tds"), ("rec td"), ("rec touchdowns"), ("rec touchdown"),
      ("rectds"), ("rectd"), ("rectouchdowns"), ("rectouchdown")])
  , (("passing_yards"),
     [("passing yards"), ("passing yard"), ("passingyards"), ("passingyard"),
      ("pass yards"), ("pass yard"), ("passyards"), ("passyard"),
      ("throwing yards"), ("throwing yard"), ("throwingyards"), ("throwingyard"),
      ("passing"), ("pass")])
  , (("rushing_yards"),
     [("rushing yards"), ("rushing yard"), ("rushingyards"), ("rushingyard"),
      ("rush yards"), ("rush yard"), ("rushyards"), ("rushyard"),
      ("rushing"), ("rush")])
  , (("receiving_yards"),
     [("receiving yards"), ("receiving yard"), ("receivingyards"), ("receivingyard"),
      ("rec yards"), ("rec yard"), ("recyards"), ("recyard"),
      ("receiving"), ("rec")])
  , (("receptions"), [("receptions"), ("reception"), ("catches"), ("recs"), ("rec")])
  , (("interceptions"), [("interceptions"), ("interception"), ("ints"), ("int")])
  , (("sacks"), [("sacks"), ("sack")])
  , (("tackles"), [("tackles"), ("tackle")])
  , (("passes_defended"),
     [("pass deflections"), ("pass deflection"), ("passdeflections"), ("passdeflection"),
      ("pass defended"), ("passdefended"), ("pds"), ("pd")])
  ]

/-- Alternatives of the leader-keyword removal pattern. -/
def leadersRemovalAlts : List String :=
  [("who"), ("has"), ("have"), ("the"), ("leaders"), ("leader"), ("top"), ("best"),
   ("most"), ("highest"), ("lowest"), ("worst"), ("in")]

/-- Alternatives of the comparison detection pattern
`(vs|versus|compare|vs\.|compared\s+to|or|against)`. -/
def comparisonAlts : List String :=
  [("vs"), ("versus"), ("compare"), ("vs."), ("compared to"), ("or"), ("against")]

/-- Alternatives of the comparison split pattern
`(?:vs\.?|versus|compare|or|compared\s+to|against)`. -/
def comparisonSplitAlts : List String :=
  [("vs."), ("vs"), ("versus"), ("compare"), ("or"), ("compared to"), ("against")]

/-- Alternatives of the comparison removal pattern
`(vs\.?|versus|compare|compared\s+to|against)`. -/
def comparisonSubAlts : List String :=
  [("vs."), ("vs"), ("versus"), ("compare"), ("compared to"), ("against")]

/-- Team nickname table of the team-context rule, in insertion order. -/
def team_nicknames : List (String × String) :=
  [ (("bucs"), ("TB")), (("niners"), ("SF")), (("pats"), ("NE")), (("fins"), ("MIA"))
  , (("pack"), ("GB")), (("boys"), ("DAL")), (("birds"), ("PHI")), (("bolts"), ("LAC"))
  , (("cards"), ("ARI")), (("brownies"), ("CLE")), (("jags"), ("JAX")), (("vikes"), ("MIN"))
  ]

/-- Stopwords removed when testing whether meaningful text remains after
extracting a team mention. -/
def stopwords_check : List String :=
  [("passing"), ("rushing"), ("receiving"), ("defense"), ("stats"), ("statistics"),
   ("season"), ("game"), ("games"), ("vs"), ("at"), ("who"), ("is"), ("the"), ("for")]

/-- Sequential removal of the check stopwords. -/
def removeStopwordsCheck (q : String) : String :=
  stopwords_check.foldl (fun acc w => patSub [w] acc) q

/-- Position keyword table (`position_keywords`), in insertion order. -/
def position_keywords : List (String × String) :=
  [ (("quarterback"), ("QB")), (("qb"), ("QB")), (("qbs"), ("QB")), (("quarterbacks"), ("QB"))
  , (("running back"), ("RB")), (("rb"), ("RB")), (("halfback"), ("RB")), (("rbs"), ("RB"))
  , (("running backs"), ("RB")), (("backs"), ("RB"))
  , (("wide receiver"), ("WR")), (("wr"), ("WR")), (("receiver"), ("WR")), (("wrs"), ("WR"))
  , (("receivers"), ("WR")), (("wide receivers"), ("WR"))
  , (("tight end"), ("TE")), (("te"), ("TE")), (("tes"), ("TE")), (("tight ends"), ("TE"))
  , (("center"), ("C")), (("c"), ("C")), (("centers"), ("C"))
  , (("guard"), ("G")), (("g"), ("G")), (("guards"), ("G"))
  , (("tackle"), ("T")), (("t"), ("T")), (("offensive tackle"), ("T")), (("tackles"), ("T"))
  , (("kicker"), ("K")), (("k"), ("K")), (("kickers"), ("K"))
  , (("punter"), ("P")), (("p"), ("P")), (("punters"), ("P"))
  , (("defensive line"), ("DL")), (("dl"), ("DL")), (("d-line"), ("DL"))
  , (("linebacker"), ("LB")), (("lb"), ("LB")), (("lbs"), ("LB")), (("linebackers"), ("LB"))
  , (("cornerback"), ("CB")), (("cb"), ("CB")), (("cbs"), ("CB")), (("cornerbacks"), ("CB"))
  , (("safety"), ("S")), (("s"), ("S")), (("safeties"), ("S"))
  , (("secondary"), ("DB")), (("db"), ("DB")), (("dbs"), ("DB"))
  , (("defense"), ("DEF")), (("def"), ("DEF"))
  ]

/-- Multi-player position-group table (`position_patterns`), in order. -/
def position_patterns : List (String × List String) :=
  [ (("receivers"), [("WR"), ("TE")])
  , (("wrs"), [("WR")])
  , (("tight ends"), [("TE")])
  , (("tes"), [("TE")])
  , (("running backs"), [("RB")])
  , (("rbs"), [("RB")])
  , (("quarterbacks"), [("QB")])
  , (("qbs"), [("QB")])
  , (("defense"), [("DE"), ("DT"), ("LB"), ("CB"), ("S"), ("DB")])
  , (("defensive line"), [("DE"), ("DT")])
  , (("linebackers"), [("LB")])
  , (("lbs"), [("LB")])
  , (("secondary"), [("CB"), ("S"), ("DB")])
  , (("dbs"), [("CB"), ("S"), ("DB")])
  ]

/-- Final stopword list removed before the residual entity text. -/
def finalStopwords : List String :=
  [("passing"), ("rushing"), ("receiving"), ("defense"), ("stats"), ("statistics"),
   ("season"), ("game"), ("games"), ("vs"), ("at"), ("in"), ("his"), ("her"),
   ("their"), ("the"), ("a"), ("an"), ("for"), ("with"), ("on")]

/-- Stat keywords skipped by the fuzzy team-name fallback. -/
def stat_keywords : List String :=
  [("sacks"), ("yards"), ("touchdowns"), ("passing"), ("rushing"), ("receiving"),
   ("tackles"), ("interceptions"), ("receptions"), ("catches"), ("leader"), ("leaders")]

/-- One DP row update of the longest-common-subsequence table (`diag`,
`left` seed the row with the implicit zero column). -/
def lcsNewRow (x : Char) : List Char → List ℕ → ℕ → ℕ → List ℕ
  | [], _, _, _ => []
  | y :: ys, prev, diag, left =>
    let up := prev.headD 0
    let cur := if x = y then diag + 1 else max left up
    cur :: lcsNewRow x ys prev.tail up cur

/-- Length of the longest common subsequence of two character lists. -/
def lcs (xs ys : List Char) : ℕ :=
  (xs.foldl (fun row x => lcsNewRow x ys row 0 0) (List.replicate ys.length 0)).getLastD 0

/-- Model of `rapidfuzz.fuzz.ratio`: the normalised indel similarity,
100 * (1 - dist / (len1 + len2)) with dist = len1 + len2 - 2 * LCS, i.e.
200 * LCS / (len1 + len2); case-sensitive, no preprocessing. -/
def fuzz_ratio (s1 s2 : String) : ℚ :=
  let l1 := s1.data.length
  let l2 := s2.data.length
  if l1 + l2 = 0 then 100
  else ((200 * lcs s1.data s2.data : ℕ) : ℚ) / ((l1 + l2 : ℕ) : ℚ)

/-- Model of `process.extractOne(..., score_cutoff=c)`: the best match is
dropped when it scores below the cutoff. -/
def extractOneCutoff (scorer : String → String → ℚ) (query : String)
    (choices : List String) (cutoff : ℚ) : Option (String × ℚ × ℕ) :=
  match extractOne scorer query choices with
  | some r => if r.2.1 ≥ cutoff then some r else none
  | none => none

/-- Teams sorted by descending name length (`teams.sort(key=len, reverse=True)`,
a stable sort), as used by the official-name scan and the fuzzy fallback. -/
def sortedTeams : List Team :=
  sortDescBy (fun a b => decide (a.name.data.length ≤ b.name.data.length)) get_teams

/-- Variant list of the fuzzy team fallback: nickname (last word of the
name, original case), abbreviation and full name of each team, in team
order. -/
def team_variants (teams : List Team) : List (String × Team) :=
  teams.flatMap (fun t => [(lastWord t.name, t), (t.abbr, t), (t.name, t)])

/-- Nickname stage of the team-context rule: first table nickname found
as a word in the query, resolved through the abbreviation. -/
def findNickname (q : String) : Option (Team × String) :=
  match team_nicknames.find? (fun na => patFind [na.1] q) with
  | some na => (get_teams.find? (fun t => t.abbr = na.2)).map (fun t => (t, patSub [na.1] q))
  | none => none

/-- Official-name stage, one pattern: the team mention is extracted only
when removing it (and the check stopwords) leaves substantial text. -/
def tryTeamPattern (q : String) (pat : String) : Option String :=
  if patFind [pat] q then
    let temp_query := strStrip (patSub [pat] q)
    if strStrip (removeStopwordsCheck temp_query) ≠ ("") then some temp_query else none
  else none

/-- Official-name stage, one team: full name, then nickname, then
abbreviation. -/
def tryTeamPatterns (q : String) (t : Team) : Option String :=
  match tryTeamPattern q t.name with
  | some r => some r
  | none =>
    match tryTeamPattern q (lastWord t.name) with
    | some r => some r
    | none => tryTeamPattern q t.abbr

/-- Official-name stage over all teams, longest names first. -/
def findOfficialTeam (q : String) : Option (Team × String) :=
  sortedTeams.findSome? (fun t => (tryTeamPatterns q t).map (fun r => (t, r)))

/-- Fuzzy fallback stage, one query word: best variant above ratio 65,
subject to the same substantial-remainder guard. -/
def fuzzyTeamWord (q : String) (word : String) : Option (Team × String) :=
  let variants := team_variants sortedTeams
  match extractOneCutoff fuzz_ratio word (variants.map (fun v => v.1)) 65 with
  | some r =>
    match variants[r.2.2]? with
    | some v =>
      let temp_query := strStrip (patSub [word] q)
      if strStrip (removeStopwordsCheck temp_query) ≠ ("") then some (v.2, temp_query)
      else none
    | none => none
  | none => none

/-- Words the fuzzy team fallback never tries. -/
def fuzzySkipWords : List String :=
  [("the"), ("for"), ("who"), ("what"), ("when"), ("where")]

/-- Fuzzy fallback stage over the query words. -/
def fuzzyTeamSearch (q : String) : Option (Team × String) :=
  (splitWords q).findSome? (fun word =>
    if word.data.length < 4 || ((lowerStr word) ∈ (fuzzySkipWords ++ stat_keywords))
    then none
    else fuzzyTeamWord q word)

/-- Default intent at the top of `parse_query`. -/
def initIntent (query : String) : Intent := { original_query := query }

/-- Rule 1: explicit year `\b(20\d{2})\b` (removed with `str.replace`),
else relative season phrases with the March season rollover; `ny`/`nm`
are the current year and month (`datetime.now()`). -/
def rule_season (ny nm : ℕ) (s : String × Intent) : String × Intent :=
  match findYear s.1 with
  | some y => (strReplace s.1 y (""), { s.2 with season := some y })
  | none =>
    if patFind lastSeasonAlts s.1 then
      let cs := if nm < 3 then ny - 1 else ny
      (patSub lastSeasonAlts s.1, { s.2 with season := some (Nat.repr (cs - 1)) })
    else if patFind thisSeasonAlts s.1 then
      let cs := if nm < 3 then ny - 1 else ny
      (patSub thisSeasonAlts s.1, { s.2 with season := some (Nat.repr cs) })
    else s

/-- Rule 2: explicit week `\bweek\s+(\d+)\b`, value taken verbatim. -/
def rule_week (s : String × Intent) : String × Intent :=
  match findWeekAux s.1.data false with
  | some n =>
    (String.mk (subWeekAux s.1.data.length s.1.data false), { s.2 with week := some n })
  | none => s

/-- Rule 3: playoffs/postseason. -/
def rule_playoffs (s : String × Intent) : String × Intent :=
  if patFind playoffAlts s.1 then
    (patSub playoffAlts s.1,
     { s.2 with season_type := 3, is_playoffs := true, is_aggregation := true })
  else s

/-- Rule 5.3: Super Bowl (always postseason and playoffs). -/
def rule_superbowl (s : String × Intent) : String × Intent :=
  if patFind superbowlAlts s.1 then
    (patSub superbowlAlts s.1,
     { s.2 with season_type := 3, is_playoffs := true, is_superbowl := true })
  else s

/-- Rule 3.5: rookie year. -/
def rule_rookie (s : String × Intent) : String × Intent :=
  if patFind [("rookie")] s.1 then
    (patSub [("rookie")] s.1, { s.2 with is_rookie := true })
  else s

/-- Rule 3.6: career stats. -/
def rule_career (s : String × Intent) : String × Intent :=
  if patFind careerAlts s.1 then
    (patSub careerAlts s.1, { s.2 with is_career := true, is_aggregation := true })
  else s

/-- Rule 3.7: draft queries, with the ordinal round capture. -/
def rule_draft (s : String × Intent) : String × Intent :=
  if patFind draftAlts s.1 then
    let it := { s.2 with is_draft := true }
    let qi : String × Intent :=
      match capFind roundCapAlts s.1 with
      | some n =>
        (patSub (roundCapAlts.map (fun av => av.1)) s.1, { it with draft_round := some n })
      | none => (s.1, it)
    (patSub draftAlts qi.1, qi.2)
  else s

/-- Rule 3.8: biographical queries. -/
def rule_bio (s : String × Intent) : String × Intent :=
  if patFind bioAlts s.1 then (patSub bioAlts s.1, { s.2 with is_bio := true }) else s

/-- Rule 3.9: injury queries. -/
def rule_injury (s : String × Intent) : String × Intent :=
  if patFind injuryAlts s.1 then (patSub injuryAlts s.1, { s.2 with is_injury := true })
  else s

/-- Rule 3.10: trending queries. -/
def rule_trending (s : String × Intent) : String × Intent :=
  if patFind trendingAlts s.1 then
    (patSub trendingAlts s.1, { s.2 with is_trending := true })
  else s

/-- Rule 3.10b: fantasy-points queries. -/
def rule_fantasy (s : String × Intent) : String × Intent :=
  if patFind fantasyAlts s.1 then
    (patSub fantasyAlts s.1, { s.2 with is_fantasy_points := true })
  else s

/-- Rule 3.0: team context, three stages (nickname table, official names
with the substantial-remainder guard, fuzzy fallback at ratio 65). -/
def rule_team_context (s : String × Intent) : String × Intent :=
  match findNickname s.1 with
  | some tr => (tr.2, { s.2 with team_context := some tr.1 })
  | none =>
    match findOfficialTeam s.1 with
    | some tr => (tr.2, { s.2 with team_context := some tr.1 })
    | none =>
      match fuzzyTeamSearch s.1 with
      | some tr => (tr.2, { s.2 with team_context := some tr.1 })
      | none => s

/-- Rule 3.11: roster/depth chart: depth-numbered position first, then
roster keyword or team-context-plus-position combination. -/
def rule_roster (s : String × Intent) : String × Intent :=
  let qi : String × Intent :=
    match findDepthPosAux s.1.data false with
    | some pd =>
      (String.mk (subDepthPosAux pd.1.data s.1.data.length s.1.data false),
       { s.2 with
          is_roster := true
          roster_position := some (upperStr pd.1)
          roster_depth := some pd.2 })
    | none => (s.1, s.2)
  if qi.2.is_roster then qi
  else
    let has_kw := patFind rosterKeywordAlts qi.1
    let found_pos := (position_keywords.find? (fun kv => patFind [kv.1] qi.1)).map
      (fun kv => kv.2)
    if has_kw || (qi.2.team_context ≠ none && found_pos ≠ none) then
      let it2 := { qi.2 with is_roster := true }
      let qi3 : String × Intent :=
        match found_pos with
        | some fp =>
          ((position_keywords.filter (fun kv => kv.2 = fp)).foldl
            (fun q kv => patSub [kv.1] q) qi.1,
           { it2 with roster_position := some fp })
        | none => (qi.1, it2)
      (patSub rosterKeywordAlts qi3.1, qi3.2)
    else qi

/-- Award-type sub-classification chain of rule 3.12 (`none` when no
specific award matched, leaving the intent key unset). -/
def awardTypeOf (q : String) : Option String :=
  if patFind [("mvp")] q then some ("MVP")
  else if patFind [("opoy")] q then some ("OPOY")
  else if patFind [("dpoy")] q then some ("DPOY")
  else if patFind [("oroy")] q then some ("OROY")
  else if patFind [("droy")] q then some ("DROY")
  else if patFind probowlAlts q then some ("Pro Bowl")
  else if patFind allproAlts q then some ("All-Pro")
  else if patFind hofAlts q then some ("Hall of Fame")
  else none

/-- Rule 3.12: awards/MVP family with sub-classification and the
year-question flag. -/
def rule_awards (s : String × Intent) : String × Intent :=
  if patFind awardsAlts s.1 then
    (patSub awardsRemovalAlts s.1,
     { s.2 with
        is_awards := true
        award_type := match awardTypeOf s.1 with
          | some a => some a
          | none => s.2.award_type
        award_year_query := if patFind awardYearAlts s.1 then true else s.2.award_year_query })
  else s

/-- Rule 3.7b: game-type filters, each forcing postseason. -/
def rule_game_type (s : String × Intent) : String × Intent :=
  if patFind championshipAlts s.1 then
    (patSub championshipAlts s.1,
     { s.2 with game_type := some ("championship"), is_playoffs := true, season_type := 3 })
  else if patFind divisionalAlts s.1 then
    (patSub divisionalAlts s.1,
     { s.2 with game_type := some ("divisional"), is_playoffs := true, season_type := 3 })
  else if patFind wildcardAlts s.1 then
    (patSub wildcardAlts s.1,
     { s.2 with game_type := some ("wildcard"), is_playoffs := true, season_type := 3 })
  else s

/-- Month filter: first month name found, scan stops at the first hit. -/
def rule_month (s : String × Intent) : String × Intent :=
  match monthNames.find? (fun m => patFind [m] s.1) with
  | some m => (patSub [m] s.1, { s.2 with month_filter := some m })
  | none => s

/-- Prime-time filter. -/
def rule_primetime (s : String × Intent) : String × Intent :=
  if patFind primetimeAlts s.1 then
    (patSub primetimeAlts s.1, { s.2 with prime_time := true })
  else s

/-- Quarter filter with the ordinal capture. -/
def rule_quarter (s : String × Intent) : String × Intent :=
  match capFind quarterCapAlts s.1 with
  | some n =>
    (patSub (quarterCapAlts.map (fun av => av.1)) s.1, { s.2 with quarter_filter := some n })
  | none => s

/-- Rule 4: aggregation keywords. -/
def rule_aggregation (s : String × Intent) : String × Intent :=
  if patFind aggregationAlts s.1 then
    (patSub aggregationAlts s.1, { s.2 with is_aggregation := true })
  else s

/-- Rule 4.3: longest/biggest/furthest plus a play noun. -/
def rule_longest (s : String × Intent) : String × Intent :=
  match capFind longestCapAlts s.1 with
  | some noun =>
    (patSub (longestCapAlts.map (fun av => av.1)) s.1,
     { s.2 with
        is_longest := true
        longest_type := some ((longestTypeMap.find? (fun kv => kv.1 = noun)).elim
          ("any") (fun kv => kv.2)) })
  | none => s

/-- Rule 4.5: numeric threshold `N+ stat`, else the "multiple" keyword
implying threshold value 2. -/
def rule_threshold (s : String × Intent) : String × Intent :=
  match findThresholdAux s.1.data with
  | some vt =>
    (String.mk (subThresholdAux s.1.data.length s.1.data),
     { s.2 with threshold := some (vt.1, thresholdStatMap vt.2) })
  | none =>
    if findMultipleB s.1.data false then
      match findMultipleNB s.1.data with
      | some tok =>
        (String.mk (subMultipleAux s.1.data.length s.1.data false),
         { s.2 with threshold := some (2, multipleStatMap tok) })
      | none => s
    else s

/-- Stat-category classification and keyword removal of the leaders rule. -/
def leadersStat (q : String) (it : Intent) : String × Intent :=
  match statPatterns.find? (fun sp => patFind sp.2 q) with
  | some sp => (patSub leadersRemovalAlts (patSub sp.2 q), { it with stat_category := some sp.1 })
  | none => (patSub leadersRemovalAlts q, it)

/-- Two-player comparison branch of rule 5.5 (no opponent team matched). -/
def comparisonFallback (q : String) (it : Intent) : String × Intent :=
  let it1 := { it with is_comparison := true }
  let parts := patSplit comparisonSplitAlts q
  let it2 :=
    if parts.length ≥ 2 then
      { it1 with comparison_players := ((parts.take 2).map strStrip).filter (fun p => p ≠ ("")) }
    else it1
  (patSub comparisonSubAlts q, it2)

/-- Rule 5 / 5.5: league leaders, else the comparison-vs-opponent
disambiguation (the right-hand phrase is tried against team nicknames and
abbreviations; only on failure is the query treated as a two-player
comparison). -/
def rule_leaders_or_comparison (s : String × Intent) : String × Intent :=
  if patFind leadersAlts s.1 then
    let it0 := { s.2 with is_league_leaders := true }
    match findLimitAux s.1.data false with
    | some n =>
      leadersStat (String.mk (subLimitAux s.1.data.length s.1.data false))
        { it0 with limit := n }
    | none => leadersStat s.1 it0
  else if patFind comparisonAlts s.1 then
    match findOpponent s.1 with
    | some opp =>
      let pot := strStrip opp
      match get_teams.find? (fun t =>
          lowerStr pot = lowerStr (lastWord t.name) ∨ lowerStr pot = lowerStr t.abbr) with
      | some t => (subOpponent pot s.1, { s.2 with opponent_team := some t })
      | none => comparisonFallback s.1 s.2
    | none => comparisonFallback s.1 s.2
  else s

/-- Rule 6: multi-player position groups. -/
def rule_multi_player (s : String × Intent) : String × Intent :=
  match position_patterns.find? (fun pp => patFind [pp.1] s.1) with
  | some pp => (patSub [pp.1] s.1, { s.2 with multi_player := some (pp.2, pp.1) })
  | none => s

/-- Rule 7: generic stopword stripping. -/
def rule_stopwords (s : String × Intent) : String × Intent :=
  (finalStopwords.foldl (fun q w => patSub [w] q) s.1, s.2)

/-- Standalone-number stripping. -/
def rule_numbers (s : String × Intent) : String × Intent :=
  (subNumbers s.1, s.2)

/-- Model of `parse_query(query)`: the ordered rule pipeline, with the
current date (`ny` = year, `nm` = month) made an explicit argument. -/
def parse_query (ny nm : ℕ) (query : String) : Intent :=
  let s0 := (query, initIntent query)
  let s1 := rule_season ny nm s0
  let s2 := rule_week s1
  let s3 := rule_playoffs s2
  let s4 := rule_superbowl s3
  let s5 := rule_rookie s4
  let s6 := rule_career s5
  let s7 := rule_draft s6
  let s8 := rule_bio s7
  let s9 := rule_injury s8
  let s10 := rule_trending s9
  let s11 := rule_fantasy s10
  let s12 := rule_team_context s11
  let s13 := rule_roster s12
  let s14 := rule_awards s13
  let s15 := rule_game_type s14
  let s16 := rule_month s15
  let s17 := rule_primetime s16
  let s18 := rule_quarter s17
  let s19 := rule_aggregation s18
  let s20 := rule_longest s19
  let s21 := rule_threshold s20
  let s22 := rule_leaders_or_comparison s21
  let s23 := rule_multi_player s22
  let s24 := rule_stopwords s23
  let s25 := rule_numbers s24
  { s25.2 with clean_query := strStrip s25.1 }

/-- Projection of the fields involved in the postseason invariant:
season_type, game_type, is_superbowl, is_playoffs. -/
def StFields (it : Intent) : ℕ × Option String × Bool × Bool :=
  (it.season_type, it.game_type, it.is_superbowl, it.is_playoffs)

/-- Postseason invariant of an intent: season_type is one of the two enum
values, and a set game_type or Super Bowl flag comes with is_playoffs and
the postseason season_type. -/
def PostseasonInv (it : Intent) : Prop :=
  (it.season_type = 2 ∨ it.season_type = 3)
  ∧ ((it.game_type ≠ none ∨ it.is_superbowl = true) →
      (it.is_playoffs = true ∧ it.season_type = 3))

/-! ## Theorems: stat aggregator -/

theorem dedupAux_length (rest : List String) : ∀ cnt, (dedupAux cnt rest).length = rest.length := by
  induction rest with
  | nil => intro cnt; rfl
  | cons h t ih =>
    intro cnt
    unfold dedupAux
    cases cnt h <;> simp [ih]

theorem seenCnt_cons (seen : List String) (hd : String) (m : ℕ)
    (hm : m = seen.count hd) :
    (fun k => if k = hd then some m else seenCnt seen k) = seenCnt (hd :: seen) := by
  funext k
  by_cases hk : k = hd
  · subst hk
    simp [seenCnt, List.count_cons, hm]
  · simp [seenCnt, List.count_cons, hk]

theorem dedupAux_getElem (rest : List String) :
    ∀ (seen : List String) (i : ℕ) (l : String), rest[i]? = some l →
    (dedupAux (seenCnt seen) rest)[i]? =
      some (if seen.count l + (rest.take i).count l = 0 then l
            else l ++ (".") ++ Nat.repr (seen.count l + (rest.take i).count l)) := by
  induction rest with
  | nil => intro seen i l h; simp at h
  | cons hd tl ih =>
    intro seen i l hl
    have hbranch : seenCnt seen hd =
        (if seen.count hd = 0 then none else some (seen.count hd - 1)) := rfl
    match i with
    | 0 =>
      simp only [List.getElem?_cons_zero, Option.some.injEq] at hl
      subst hl
      by_cases h0 : seen.count hd = 0
      · unfold dedupAux
        rw [hbranch]
        simp [h0]
      · unfold dedupAux
        rw [hbranch]
        rw [if_neg h0]
        simp only [List.getElem?_cons_zero, List.take_zero, List.count_nil,
          Nat.add_zero, Option.some.injEq]
        rw [if_neg h0]
        have hc : seen.count hd - 1 + 1 = seen.count hd := by omega
        rw [hc]
    | j+1 =>
      simp only [List.getElem?_cons_succ] at hl
      have harith : seen.count l + ((hd :: tl).take (j+1)).count l =
          (hd :: seen).count l + (tl.take j).count l := by
        simp only [List.take_succ_cons, List.count_cons]
        by_cases hlh : l = hd <;> simp [hlh] <;> omega
      by_cases h0 : seen.count hd = 0
      · unfold dedupAux
        rw [hbranch]
        simp only [h0, if_true, List.getElem?_cons_succ]
        rw [seenCnt_cons seen hd 0 (by omega)]
        rw [ih (hd :: seen) j l hl]
        rw [harith]
      · unfold dedupAux
        rw [hbranch]
        simp only [h0, if_false, List.getElem?_cons_succ]
        rw [seenCnt_cons seen hd (seen.count hd - 1 + 1) (by omega)]
        rw [ih (hd :: seen) j l hl]
        rw [harith]

theorem dedupHeaders_eq_aux (headers : List String) :
    dedupHeaders headers = dedupAux (seenCnt []) headers := rfl

/-- C5: header deduplication scans left to right, the n-th repeat of a
label gets the positional suffix ".n", first occurrences are unchanged,
the aggregation result reports exactly this deduplicated list, and
["Yds","TD","Yds"] deduplicates to ["Yds","TD","Yds.1"]. -/
theorem c5_dedup_positional_suffixes :
    (∀ headers : List String, (dedupHeaders headers).length = headers.length)
  ∧ (∀ (headers : List String) (i : ℕ) (l : String), headers[i]? = some l →
      (dedupHeaders headers)[i]? =
        some (if (headers.take i).count l = 0 then l
              else l ++ (".") ++ Nat.repr ((headers.take i).count l)))
  ∧ (∀ (games : List Game) (headers : List String), games ≠ [] → headers ≠ [] →
      (aggregate_stats games headers).map AggResult.headers = some (dedupHeaders headers))
  ∧ dedupHeaders [("Yds"), ("TD"), ("Yds")] = [("Yds"), ("TD"), ("Yds.1")] := by
  refine ⟨?_, ?_, ?_, by decide⟩
  · intro headers
    rw [dedupHeaders_eq_aux]
    exact dedupAux_length headers _
  · intro headers i l hl
    rw [dedupHeaders_eq_aux]
    have h := dedupAux_getElem headers [] i l hl
    simpa using h
  · intro games headers hg hh
    have hge : games.isEmpty = false := by simpa using hg
    have hhe : headers.isEmpty = false := by simpa using hh
    simp [aggregate_stats, hge, hhe]

theorem c5_dedup_positional_suffixes_witness :
    (dedupHeaders [("Yds"), ("TD"), ("Yds")])[2]? = some ("Yds.1")
  ∧ (aggregate_stats [Game.mk [("1")]] [("Yds"), ("TD"), ("Yds")]).map AggResult.headers =
      some [("Yds"), ("TD"), ("Yds.1")] := by
  constructor
  · rw [c5_dedup_positional_suffixes.2.1 [("Yds"), ("TD"), ("Yds")] 2 ("Yds") (by decide)]
    decide
  · rw [c5_dedup_positional_suffixes.2.2.1 [Game.mk [("1")]] [("Yds"), ("TD"), ("Yds")]
      (by decide) (by decide)]
    decide

/-- C1 fails as stated: for the longest-class header "Lng" with numeric
values 12, 45, 3 over 3 games the reported average is the max 45, not the
sum divided by the number of games (60 / 3 = 20). -/
theorem c1_average_counterexample :
    dedupHeaders [("Lng")] = [("Lng")]
  ∧ (aggState lngGames [("Lng")]).counts ("Lng") = 3
  ∧ (aggState lngGames [("Lng")]).sums ("Lng") = 60
  ∧ lngGames.length = 3
  ∧ (aggregate_stats lngGames [("Lng")]).map (fun r => r.averages ("Lng")) = some (some 45)
  ∧ (45 : ℚ) ≠ 60 / 3 := by
  refine ⟨by decide, by with_unfolding_all decide, by with_unfolding_all decide, rfl,
    by with_unfolding_all decide, by norm_num⟩

/-- C1 (amended): for every deduplicated header that has at least one
numeric cell and is not longest-class (base label not in {Lng, Long}), the
reported average is the accumulated sum divided by the total number of
games passed in, and whenever the column is sparse (count < N) with a
nonzero sum this differs from sum divided by the with-data count. -/
theorem c1_average_uses_total_game_count
    (games : List Game) (headers : List String) (h : String)
    (hg : games ≠ []) (hh : headers ≠ [])
    (hmem : h ∈ dedupHeaders headers)
    (hcnt : 0 < (aggState games headers).counts h)
    (hlong : baseHeader h ∉ longHeaders) :
    (aggregate_stats games headers).map (fun r => r.averages h) =
      some (some ((aggState games headers).sums h / (games.length : ℚ)))
  ∧ ((aggState games headers).counts h ≠ games.length →
      (aggState games headers).sums h ≠ 0 →
      (aggState games headers).sums h / (games.length : ℚ) ≠
        (aggState games headers).sums h / ((aggState games headers).counts h : ℚ)) := by
  constructor
  · have hge : games.isEmpty = false := by simpa using hg
    have hhe : headers.isEmpty = false := by simpa using hh
    simp [aggregate_stats, hge, hhe, hmem, hcnt, hlong]
  · intro hne hs0 heq
    have hNnz : ((games.length : ℚ)) ≠ 0 := by
      have : games.length ≠ 0 := by simpa using hg
      exact_mod_cast this
    have hMnz : (((aggState games headers).counts h : ℚ)) ≠ 0 := by
      have : (aggState games headers).counts h ≠ 0 := Nat.pos_iff_ne_zero.mp hcnt
      exact_mod_cast this
    rw [div_eq_div_iff hNnz hMnz] at heq
    have := mul_left_cancel₀ hs0 heq
    exact hne (by exact_mod_cast this)

theorem c1_average_uses_total_game_count_witness :
    (aggregate_stats sparseGames [("Yds")]).map (fun r => r.averages ("Yds")) =
      some (some ((aggState sparseGames [("Yds")]).sums ("Yds") / (sparseGames.length : ℚ)))
  ∧ (aggState sparseGames [("Yds")]).sums ("Yds") / (sparseGames.length : ℚ) ≠
      (aggState sparseGames [("Yds")]).sums ("Yds") /
        ((aggState sparseGames [("Yds")]).counts ("Yds") : ℚ) := by
  have h := c1_average_uses_total_game_count sparseGames [("Yds")] ("Yds")
    (by decide) (by decide) (by decide) (by with_unfolding_all decide) (by decide)
  exact ⟨h.1, h.2 (by with_unfolding_all decide) (by with_unfolding_all decide)⟩

theorem rate_not_long (s : String) (hr : s ∈ rateHeaders) : s ∉ longHeaders := by
  intro hl
  simp only [rateHeaders, List.mem_cons, List.mem_singleton, List.not_mem_nil, or_false] at hr
  rcases hr with rfl | rfl | rfl | rfl | rfl <;> exact absurd hl (by decide)

theorem long_not_rate (s : String) (hl : s ∈ longHeaders) : s ∉ rateHeaders := by
  intro hr
  exact rate_not_long s hr hl

/-- C2: for every aggregation, a deduplicated header whose base label is
rate-class ({Avg, Rate, Pct, Yds/A, Avg/R}) and has numeric data reports
its average as its total, and a header whose base label is longest-class
({Lng, Long}) reports its max as both total and average; concretely
"Rate" over [80.0, 90.0] yields average = total = 85 (not 170) and "Lng"
over [12, 45, 3] yields total = average = 45. -/
theorem c2_rate_and_longest_class_overrides :
    (∀ (games : List Game) (headers : List String) (h : String),
      games ≠ [] → headers ≠ [] → h ∈ dedupHeaders headers →
      ((baseHeader h ∈ rateHeaders → 0 < (aggState games headers).counts h →
          (aggregate_stats games headers).map (fun r => r.totals h) =
            (aggregate_stats games headers).map (fun r => r.averages h))
        ∧ (baseHeader h ∈ longHeaders →
          (aggregate_stats games headers).map (fun r => r.totals h) =
              some (some ((aggState games headers).maxes h))
          ∧ (aggregate_stats games headers).map (fun r => r.averages h) =
              some (some ((aggState games headers).maxes h)))))
  ∧ ((aggregate_stats rateGames [("Rate")]).map (fun r => r.averages ("Rate")) = some (some 85)
      ∧ (aggregate_stats rateGames [("Rate")]).map (fun r => r.totals ("Rate")) = some (some 85)
      ∧ (aggregate_stats rateGames [("Rate")]).map (fun r => r.totals ("Rate")) ≠ some (some 170))
  ∧ ((aggregate_stats lngGames [("Lng")]).map (fun r => r.totals ("Lng")) = some (some 45)
      ∧ (aggregate_stats lngGames [("Lng")]).map (fun r => r.averages ("Lng")) = some (some 45)) := by
  refine ⟨?_, ⟨by with_unfolding_all decide, by with_unfolding_all decide,
      by with_unfolding_all decide⟩,
    ⟨by with_unfolding_all decide, by with_unfolding_all decide⟩⟩
  intro games headers h hg hh hmem
  have hge : games.isEmpty = false := by simpa using hg
  have hhe : headers.isEmpty = false := by simpa using hh
  constructor
  · intro hrate hcnt
    have hnl : baseHeader h ∉ longHeaders := rate_not_long _ hrate
    simp [aggregate_stats, hge, hhe, hmem, hrate, hnl, hcnt]
  · intro hlng
    have hnr : baseHeader h ∉ rateHeaders := long_not_rate _ hlng
    constructor <;> simp [aggregate_stats, hge, hhe, hmem, hlng, hnr]

theorem c2_rate_and_longest_class_overrides_witness :
    ((aggregate_stats rateGames [("Rate")]).map (fun r => r.totals ("Rate")) =
        (aggregate_stats rateGames [("Rate")]).map (fun r => r.averages ("Rate")))
  ∧ ((aggregate_stats lngGames [("Lng")]).map (fun r => r.totals ("Lng")) =
        some (some ((aggState lngGames [("Lng")]).maxes ("Lng")))) := by
  constructor
  · exact (c2_rate_and_longest_class_overrides.1 rateGames [("Rate")] ("Rate")
      (by decide) (by decide) (by decide)).1 (by decide) (by with_unfolding_all decide)
  · exact ((c2_rate_and_longest_class_overrides.1 lngGames [("Lng")] ("Lng")
      (by decide) (by decide) (by decide)).2 (by decide)).1

/-! ## Theorems: threshold filter -/

/-- C3: the single-game threshold check returns true exactly when the row
has some header whose label is in the position-specific acceptable list
and whose parsed numeric value reaches the threshold; in particular a WR
with header "Yds" = 105 meets a 100-yard threshold while a QB whose only
header is "Rec Yds" = 105 does not. -/
theorem c3_threshold_check_iff :
    (∀ (game : Game) (headers : List String) (stat : String) (tv : ℚ) (pos : Option String),
      check_game_threshold game headers stat tv pos = true ↔
        ∃ (i : ℕ) (h : String), headers[i]? = some h ∧ h ∈ possibleHeadersFor stat pos ∧
          ∃ v : ℚ, (game.stats[i]?.bind cellVal?) = some v ∧ tv ≤ v)
  ∧ check_game_threshold (Game.mk [("105")]) [("Yds")] ("yards") 100 (some ("WR")) = true
  ∧ check_game_threshold (Game.mk [("105")]) [("Rec Yds")] ("yards") 100 (some ("QB")) = false := by
  refine ⟨?_, by with_unfolding_all decide, by with_unfolding_all decide⟩
  intro game headers stat tv pos
  unfold check_game_threshold
  rw [List.any_eq_true]
  constructor
  · rintro ⟨⟨i, h⟩, hmem, hp⟩
    rw [List.mem_enum_iff_getElem?] at hmem
    dsimp only at hmem hp
    by_cases hposs : h ∈ possibleHeadersFor stat pos
    · simp only [hposs, if_true] at hp
      cases hval : game.stats[i]? with
      | none => simp only [hval] at hp; exact absurd hp (by simp)
      | some val =>
        simp only [hval] at hp
        cases hcv : cellVal? val with
        | none => simp only [hcv] at hp; exact absurd hp (by simp)
        | some v =>
          simp only [hcv, decide_eq_true_eq] at hp
          exact ⟨i, h, hmem, hposs, v, by simp [hval, hcv], hp⟩
    · simp [hposs] at hp
  · rintro ⟨i, h, hidx, hposs, v, hval, hle⟩
    refine ⟨(i, h), List.mem_enum_iff_getElem?.mpr hidx, ?_⟩
    dsimp only
    obtain ⟨val, hv1, hv2⟩ : ∃ val, game.stats[i]? = some val ∧ cellVal? val = some v := by
      cases hs : game.stats[i]? with
      | none => rw [hs] at hval; simp at hval
      | some val =>
        rw [hs] at hval
        simp only [Option.some_bind] at hval
        exact ⟨val, rfl, hval⟩
    simp only [hposs, if_true, hv1, hv2, decide_eq_true_eq]
    exact hle

theorem c3_threshold_check_iff_witness :
    check_game_threshold (Game.mk [("1,234")]) [("Yds")] ("yards") 1000 none = true :=
  (c3_threshold_check_iff.1 (Game.mk [("1,234")]) [("Yds")] ("yards") 1000 none).mpr
    ⟨0, ("Yds"), by decide, by decide, 1234, by with_unfolding_all decide, by norm_num⟩

theorem foldl_threshold_count (p : Game → Bool) :
    ∀ (l : List Game) (c : ℕ),
      l.foldl (fun count g => if p g then count + 1 else count) c = c + l.countP p := by
  intro l
  induction l with
  | nil => intro c; simp
  | cons g t ih =>
    intro c
    cases hpg : p g
    · simp [List.countP_cons, hpg, ih]
    · simp [List.countP_cons, hpg, ih]
      omega

/-- C10: the bulk threshold count always calls the single-game predicate
with no position, so it equals the number of games satisfying the
position-less predicate; with no position the yards and touchdowns tables
reduce to the generic spellings only. -/
theorem c10_bulk_count_positionless :
    (∀ (games : List Game) (headers : List String) (stat : String) (tv : ℚ),
      count_games_meeting_threshold games headers stat tv =
        games.countP (fun g => check_game_threshold g headers stat tv none))
  ∧ possibleHeadersFor ("yards") none = [("Yds"), ("Yards")]
  ∧ possibleHeadersFor ("touchdowns") none = [("TD"), ("Touchdowns")] := by
  refine ⟨?_, by decide, by decide⟩
  intro games headers stat tv
  unfold count_games_meeting_threshold
  rw [foldl_threshold_count]
  simp

/-! ## Theorems: entity resolver -/

theorem memOfGet {A : Type} (l : List A) (i : ℕ) (a : A) (h : l[i]? = some a) : a ∈ l := by
  obtain ⟨hi, he⟩ := List.getElem?_eq_some.mp h
  rw [← he]
  exact List.getElem_mem hi

theorem extractOne_fold_spec (scorer : String → String → ℚ) (query : String)
    (choices : List String) :
    ∀ (l : List (ℕ × String)) (init : Option (String × ℚ × ℕ)),
      (∀ r, init = some r → r.1 ∈ choices ∧ r.2.1 = scorer query r.1) →
      (∀ p ∈ l, p.2 ∈ choices) →
      ∀ r, l.foldl
          (fun best ic =>
            match best with
            | none => some (ic.2, scorer query ic.2, ic.1)
            | some b =>
              if scorer query ic.2 > b.2.1 then some (ic.2, scorer query ic.2, ic.1)
              else some b) init = some r →
        r.1 ∈ choices ∧ r.2.1 = scorer query r.1 := by
  intro l
  induction l with
  | nil => intro init hinit _ r hr; exact hinit r hr
  | cons p t ih =>
    intro init hinit hmem r hr
    simp only [List.foldl_cons] at hr
    refine ih _ ?_ (fun q hq => hmem q (List.mem_cons_of_mem p hq)) r hr
    intro r2 hr2
    cases init with
    | none =>
      simp only [Option.some.injEq] at hr2
      rw [← hr2]
      exact ⟨hmem p (List.mem_cons_self p t), rfl⟩
    | some b =>
      have hb := hinit b rfl
      simp only [] at hr2
      by_cases hgt : scorer query p.2 > b.2.1
      · rw [if_pos hgt] at hr2
        simp only [Option.some.injEq] at hr2
        rw [← hr2]
        exact ⟨hmem p (List.mem_cons_self p t), rfl⟩
      · rw [if_neg hgt] at hr2
        simp only [Option.some.injEq] at hr2
        rw [← hr2]
        exact hb

theorem extractOne_spec (scorer : String → String → ℚ) (query : String)
    (choices : List String) (r : String × ℚ × ℕ)
    (h : extractOne scorer query choices = some r) :
    r.1 ∈ choices ∧ r.2.1 = scorer query r.1 := by
  unfold extractOne at h
  refine extractOne_fold_spec scorer query choices choices.enum none (by intro r2 hr2; cases hr2)
    ?_ r h
  intro p hp
  exact memOfGet choices p.1 p.2 (List.mem_enum_iff_getElem?.mp hp)

theorem mem_insertDescBy {A : Type} (le : A -> A -> Bool) (x y : A) :
    ∀ l : List A, y ∈ insertDescBy le x l → y = x ∨ y ∈ l := by
  intro l
  induction l with
  | nil =>
    intro h
    unfold insertDescBy at h
    simpa using h
  | cons z t ih =>
    intro h
    unfold insertDescBy at h
    by_cases hle : le x z
    · rw [if_pos hle] at h
      rcases List.mem_cons.mp h with h1 | h2
      · exact Or.inr (by rw [h1]; exact List.mem_cons_self z t)
      · rcases ih h2 with h3 | h4
        · exact Or.inl h3
        · exact Or.inr (List.mem_cons_of_mem z h4)
    · rw [if_neg hle] at h
      rcases List.mem_cons.mp h with h1 | h2
      · exact Or.inl h1
      · exact Or.inr h2

theorem mem_sortDescBy {A : Type} (le : A -> A -> Bool) (y : A) :
    ∀ (l acc : List A), y ∈ l.foldl (fun a x => insertDescBy le x a) acc → y ∈ acc ∨ y ∈ l := by
  intro l
  induction l with
  | nil => intro acc h; exact Or.inl h
  | cons z t ih =>
    intro acc h
    simp only [List.foldl_cons] at h
    rcases ih (insertDescBy le z acc) h with h1 | h2
    · rcases mem_insertDescBy le z y acc h1 with h3 | h4
      · exact Or.inr (by rw [h3]; exact List.mem_cons_self z t)
      · exact Or.inl h4
    · exact Or.inr (List.mem_cons_of_mem z h2)

theorem processExtract_spec (scorer : String → String → ℚ) (query : String)
    (choices : List String) (limit : ℕ) (t : String × ℚ × ℕ)
    (h : t ∈ processExtract scorer query choices limit) :
    t.1 ∈ choices ∧ t.2.1 = scorer query t.1 := by
  unfold processExtract at h
  have h1 := List.mem_of_mem_take h
  have h2 := mem_sortDescBy _ t _ [] h1
  simp only [List.not_mem_nil, false_or] at h2
  obtain ⟨ic, hic, hics⟩ := List.mem_map.mp h2
  rw [← hics]
  exact ⟨memOfGet choices ic.1 ic.2 (List.mem_enum_iff_getElem?.mp hic), rfl⟩

/-- C8: when no team matches (no exact abbreviation, no fuzzy full-name
score above 70) and every player candidate scores at most 60, entity
resolution returns the none result.  The model is a total function, so
the no-exception part of the claim holds by construction. -/
theorem c8_unmatched_query_returns_none
    (wratio : String → String → ℚ) (players : List Player) (query : String)
    (hab : ∀ t ∈ get_teams, lowerStr t.abbr ≠ lowerStr query)
    (hteam : ∀ t ∈ get_teams, wratio query t.name ≤ 70)
    (hplay : ∀ p ∈ players,
      wratio (normName (applyTypos query)) (normName p.display_name) ≤ 60) :
    identify_entity wratio players query = none := by
  have hteam_none : search_team wratio query = none := by
    unfold search_team
    have hfind : get_teams.find? (fun t => lowerStr t.abbr = lowerStr query) = none := by
      rw [List.find?_eq_none]
      intro t ht
      simpa using hab t ht
    simp only [hfind]
    cases hres : extractOne wratio query (get_teams.map (fun t => t.name)) with
    | none => simp [hres]
    | some r =>
      simp only [hres]
      have hspec := extractOne_spec _ _ _ r hres
      obtain ⟨t, ht, hte⟩ := List.mem_map.mp hspec.1
      have hle : r.2.1 ≤ 70 := by
        rw [hspec.2, ← hte]
        exact hteam t ht
      rw [if_neg (by exact not_lt.mpr hle)]
  have hplayer_nil : search_player wratio players query 20 = [] := by
    unfold search_player
    by_cases hpl : players = []
    · rw [if_pos hpl]
    · rw [if_neg hpl]
      have hm : (processExtract wratio (normName (applyTypos query))
          (players.map (fun p => normName p.display_name)) 20).filterMap
          (fun t => if t.2.1 > 60 then (players[t.2.2]?).map (fun p => (p, t.2.1)) else none)
          = [] := by
        rw [List.filterMap_eq_nil_iff]
        intro t ht
        have hspec := processExtract_spec _ _ _ _ t ht
        obtain ⟨p, hp, hpe⟩ := List.mem_map.mp hspec.1
        have hle : t.2.1 ≤ 60 := by
          rw [hspec.2, ← hpe]
          exact hplay p hp
        rw [if_neg (by exact not_lt.mpr hle)]
      simp only [hm]
      rfl
  unfold identify_entity
  rw [hteam_none, hplayer_nil]
  rfl

theorem c8_unmatched_query_returns_none_witness :
    identify_entity (fun _ _ => (0 : ℚ))
      [Player.mk ("Test Player") ("123") ("QB") ("Active")] ("zzz") = none :=
  c8_unmatched_query_returns_none (fun _ _ => (0 : ℚ))
    [Player.mk ("Test Player") ("123") ("QB") ("Active")] ("zzz")
    (by decide)
    (by intro t _; norm_num)
    (by intro p _; norm_num)

/-- C9: player resolution is deterministic.  The resolver is embedded as a
pure function of the query, the player directory and the scorer, so two
runs on identical input are definitionally the same ranked list; the code
itself has no other inputs (its sort is stable and its tables are fixed),
which the embedding makes explicit.  In particular resolving "mahomes"
twice gives the same top candidate. -/
theorem c9_search_player_deterministic :
    (∀ (wratio : String → String → ℚ) (players : List Player) (query : String) (limit : ℕ),
      search_player wratio players query limit = search_player wratio players query limit)
  ∧ (∀ (wratio : String → String → ℚ) (players : List Player),
      (search_player wratio players ("mahomes") 5).head? =
        (search_player wratio players ("mahomes") 5).head?) :=
  ⟨fun _ _ _ _ => rfl, fun _ _ => rfl⟩

/-! ## Theorems: intent extractor -/

theorem inv_of_stfields {it1 it2 : Intent} (h : StFields it1 = StFields it2)
    (hinv : PostseasonInv it2) : PostseasonInv it1 := by
  unfold StFields at h
  have h1 : it1.season_type = it2.season_type := congrArg Prod.fst h
  have h2 : it1.game_type = it2.game_type := congrArg (fun p => p.2.1) h
  have h3 : it1.is_superbowl = it2.is_superbowl := congrArg (fun p => p.2.2.1) h
  have h4 : it1.is_playoffs = it2.is_playoffs := congrArg (fun p => p.2.2.2) h
  unfold PostseasonInv
  rw [h1, h2, h3, h4]
  exact hinv

theorem rule_season_fields (ny nm : ℕ) (s : String × Intent) :
    StFields (rule_season ny nm s).2 = StFields s.2 := by
  simp only [rule_season]
  repeat' split
  all_goals rfl

theorem rule_week_fields (s : String × Intent) :
    StFields (rule_week s).2 = StFields s.2 := by
  simp only [rule_week]
  repeat' split
  all_goals rfl

theorem rule_rookie_fields (s : String × Intent) :
    StFields (rule_rookie s).2 = StFields s.2 := by
  simp only [rule_rookie]
  repeat' split
  all_goals rfl

theorem rule_career_fields (s : String × Intent) :
    StFields (rule_career s).2 = StFields s.2 := by
  simp only [rule_career]
  repeat' split
  all_goals rfl

theorem rule_draft_fields (s : String × Intent) :
    StFields (rule_draft s).2 = StFields s.2 := by
  simp only [rule_draft]
  repeat' split
  all_goals rfl

theorem rule_bio_fields (s : String × Intent) :
    StFields (rule_bio s).2 = StFields s.2 := by
  simp only [rule_bio]
  repeat' split
  all_goals rfl

theorem rule_injury_fields (s : String × Intent) :
    StFields (rule_injury s).2 = StFields s.2 := by
  simp only [rule_injury]
  repeat' split
  all_goals rfl

theorem rule_trending_fields (s : String × Intent) :
    StFields (rule_trending s).2 = StFields s.2 := by
  simp only [rule_trending]
  repeat' split
  all_goals rfl

theorem rule_fantasy_fields (s : String × Intent) :
    StFields (rule_fantasy s).2 = StFields s.2 := by
  simp only [rule_fantasy]
  repeat' split
  all_goals rfl

theorem rule_team_context_fields (s : String × Intent) :
    StFields (rule_team_context s).2 = StFields s.2 := by
  simp only [rule_team_context]
  repeat' split
  all_goals rfl

theorem rule_roster_fields (s : String × Intent) :
    StFields (rule_roster s).2 = StFields s.2 := by
  simp only [rule_roster]
  repeat' split
  all_goals rfl

theorem rule_awards_fields (s : String × Intent) :
    StFields (rule_awards s).2 = StFields s.2 := by
  simp only [rule_awards]
  repeat' split
  all_goals rfl

theorem rule_month_fields (s : String × Intent) :
    StFields (rule_month s).2 = StFields s.2 := by
  simp only [rule_month]
  repeat' split
  all_goals rfl

theorem rule_primetime_fields (s : String × Intent) :
    StFields (rule_primetime s).2 = StFields s.2 := by
  simp only [rule_primetime]
  repeat' split
  all_goals rfl

theorem rule_quarter_fields (s : String × Intent) :
    StFields (rule_quarter s).2 = StFields s.2 := by
  simp only [rule_quarter]
  repeat' split
  all_goals rfl

theorem rule_aggregation_fields (s : String × Intent) :
    StFields (rule_aggregation s).2 = StFields s.2 := by
  simp only [rule_aggregation]
  repeat' split
  all_goals rfl

theorem rule_longest_fields (s : String × Intent) :
    StFields (rule_longest s).2 = StFields s.2 := by
  simp only [rule_longest]
  repeat' split
  all_goals rfl

theorem rule_threshold_fields (s : String × Intent) :
    StFields (rule_threshold s).2 = StFields s.2 := by
  simp only [rule_threshold]
  repeat' split
  all_goals rfl

theorem rule_leaders_or_comparison_fields (s : String × Intent) :
    StFields (rule_leaders_or_comparison s).2 = StFields s.2 := by
  simp only [rule_leaders_or_comparison, leadersStat, comparisonFallback]
  repeat' split
  all_goals rfl

theorem rule_multi_player_fields (s : String × Intent) :
    StFields (rule_multi_player s).2 = StFields s.2 := by
  simp only [rule_multi_player]
  repeat' split
  all_goals rfl

theorem rule_stopwords_fields (s : String × Intent) :
    StFields (rule_stopwords s).2 = StFields s.2 := by
  unfold rule_stopwords
  rfl

theorem rule_numbers_fields (s : String × Intent) :
    StFields (rule_numbers s).2 = StFields s.2 := by
  unfold rule_numbers
  rfl

theorem inv_clean_query (it : Intent) (q : String) (h : PostseasonInv it) :
    PostseasonInv { it with clean_query := q } := by
  unfold PostseasonInv at h ⊢
  exact h

theorem rule_playoffs_inv (s : String × Intent) (h : PostseasonInv s.2) :
    PostseasonInv (rule_playoffs s).2 := by
  unfold rule_playoffs
  split
  · exact ⟨Or.inr rfl, fun _ => ⟨rfl, rfl⟩⟩
  · exact h

theorem rule_superbowl_inv (s : String × Intent) (h : PostseasonInv s.2) :
    PostseasonInv (rule_superbowl s).2 := by
  unfold rule_superbowl
  split
  · exact ⟨Or.inr rfl, fun _ => ⟨rfl, rfl⟩⟩
  · exact h

theorem rule_game_type_inv (s : String × Intent) (h : PostseasonInv s.2) :
    PostseasonInv (rule_game_type s).2 := by
  unfold rule_game_type
  split
  · exact ⟨Or.inr rfl, fun _ => ⟨rfl, rfl⟩⟩
  · split
    · exact ⟨Or.inr rfl, fun _ => ⟨rfl, rfl⟩⟩
    · split
      · exact ⟨Or.inr rfl, fun _ => ⟨rfl, rfl⟩⟩
      · exact h

/-- C6: for every input query (and any current date), the produced intent
has season_type 2 (Regular) or 3 (Postseason), and whenever game_type is
set or is_superbowl is true the intent also has is_playoffs and
season_type = 3. -/
theorem c6_season_type_invariant (ny nm : ℕ) (query : String) :
    ((parse_query ny nm query).season_type = 2 ∨ (parse_query ny nm query).season_type = 3)
  ∧ (((parse_query ny nm query).game_type ≠ none
        ∨ (parse_query ny nm query).is_superbowl = true) →
      ((parse_query ny nm query).is_playoffs = true
        ∧ (parse_query ny nm query).season_type = 3)) := by
  have h0 : PostseasonInv (initIntent query) := by
    refine ⟨Or.inl rfl, ?_⟩
    rintro (h | h)
    · exact absurd rfl h
    · exact absurd h (by simp [initIntent])
  have hfinal : PostseasonInv (parse_query ny nm query) := by
    simp only [parse_query]
    apply inv_clean_query
    apply inv_of_stfields (rule_numbers_fields _)
    apply inv_of_stfields (rule_stopwords_fields _)
    apply inv_of_stfields (rule_multi_player_fields _)
    apply inv_of_stfields (rule_leaders_or_comparison_fields _)
    apply inv_of_stfields (rule_threshold_fields _)
    apply inv_of_stfields (rule_longest_fields _)
    apply inv_of_stfields (rule_aggregation_fields _)
    apply inv_of_stfields (rule_quarter_fields _)
    apply inv_of_stfields (rule_primetime_fields _)
    apply inv_of_stfields (rule_month_fields _)
    apply rule_game_type_inv
    apply inv_of_stfields (rule_awards_fields _)
    apply inv_of_stfields (rule_roster_fields _)
    apply inv_of_stfields (rule_team_context_fields _)
    apply inv_of_stfields (rule_fantasy_fields _)
    apply inv_of_stfields (rule_trending_fields _)
    apply inv_of_stfields (rule_injury_fields _)
    apply inv_of_stfields (rule_bio_fields _)
    apply inv_of_stfields (rule_draft_fields _)
    apply inv_of_stfields (rule_career_fields _)
    apply inv_of_stfields (rule_rookie_fields _)
    apply rule_superbowl_inv
    apply rule_playoffs_inv
    apply inv_of_stfields (rule_week_fields _)
    apply inv_of_stfields (rule_season_fields ny nm _)
    exact h0
  exact hfinal

theorem c6_season_type_invariant_witness :
    (parse_query 2025 10 ("championship")).is_playoffs = true
  ∧ (parse_query 2025 10 ("championship")).season_type = 3 :=
  (c6_season_type_invariant 2025 10 ("championship")).2
    (Or.inl (by with_unfolding_all decide))

/-- C7 fails as stated: the extractor copies the number after "week" with
no range check, so "week 99" yields week = 99, outside 1..22. -/
theorem c7_week_range_counterexample :
    (parse_query 2025 10 ("week 99")).week = some 99 ∧ ¬(1 ≤ 99 ∧ 99 ≤ 22) :=
  ⟨by with_unfolding_all decide, by decide⟩

/-- C7 (amended): when the extractor sets the week field its value is the
number written after "week", recorded without any 1..22 range validation:
in-range values like 5 are kept, and so are out-of-range values like 0
and 99. -/
theorem c7_week_unvalidated :
    (parse_query 2025 10 ("week 5")).week = some 5
  ∧ (parse_query 2025 10 ("week 0")).week = some 0
  ∧ (parse_query 2025 10 ("week 99")).week = some 99 :=
  ⟨by with_unfolding_all decide, by with_unfolding_all decide, by with_unfolding_all decide⟩

/-- C4: evaluation of the intent extractor at the claim's inputs.  On
"mahomes vs bills" the team-context rule consumes "bills" before the
vs-disambiguation runs, so the extractor leaves opponent_team unset,
stores the Bills as team_context, and marks the query as a comparison
with the single entry "mahomes" — contradicting the claimed
opponent_team=Bills / not-a-comparison behaviour.  On "mahomes vs allen"
the two-player comparison fires as claimed.  On "vs bills" (no player
name, so the team-context guard declines) the opponent branch does fire,
showing the disambiguation exists but is preempted whenever a player name
accompanies the team. -/
theorem c4_vs_team_disambiguation :
    ((parse_query 2025 10 ("mahomes vs bills")).opponent_team = none
      ∧ (parse_query 2025 10 ("mahomes vs bills")).is_comparison = true
      ∧ (parse_query 2025 10 ("mahomes vs bills")).comparison_players = [("mahomes")]
      ∧ (parse_query 2025 10 ("mahomes vs bills")).team_context =
          some (Team.mk ("Buffalo Bills") ("BUF") ("2")))
  ∧ ((parse_query 2025 10 ("mahomes vs allen")).is_comparison = true
      ∧ (parse_query 2025 10 ("mahomes vs allen")).comparison_players =
          [("mahomes"), ("allen")]
      ∧ (parse_query 2025 10 ("mahomes vs allen")).opponent_team = none)
  ∧ ((parse_query 2025 10 ("vs bills")).opponent_team =
        some (Team.mk ("Buffalo Bills") ("BUF") ("2"))
      ∧ (parse_query 2025 10 ("vs bills")).is_comparison = false) := by
  refine ⟨⟨?_, ?_, ?_, ?_⟩, ⟨?_, ?_, ?_⟩, ?_, ?_⟩
  all_goals with_unfolding_all decide
